import Mathlib

/-!
Verification model of the PolkadaiBridge pallet
(`src/runtime/src/bridge.rs` of akropolisio/akropolisOS-chain-node).

The pallet is a state machine over flat key-value storage maps.  We embed it
shallowly: every storage map becomes an association list, machine integers
become `Nat` (`Balance` is `u128`; the checked arithmetic of the source is
translated with explicit comparisons against `2^128 - 1`), and every
dispatchable or internal function becomes an executable Lean function of type
`BridgeState → BridgeState × Option String` where `none` means `Ok(())` and
`some e` means `Err(e)`.

Error semantics: in the Substrate version this pallet targets, storage writes
performed before a dispatch error are NOT rolled back.  The repository
documents this itself (the `KNOWN BUGS` note in the test module: "Write to
storage after check - verify first, write last", and the spec's "documented
side-effecting failure" for the 75% cap).  Accordingly a failing call returns
the state as mutated up to the failure point, and sequencing (`bindE`)
propagates that state.
-/

namespace Bridge

/-- Association-list lookup, modelling `StorageMap::get` for maps queried with
`contains_key` discipline; returns `none` when the key is absent. -/
def mapGet {K V : Type} [DecidableEq K] (l : List (K × V)) (k : K) : Option V :=
  (l.find? (fun p => decide (p.1 = k))).map (·.2)

/-- Lookup with a default value, modelling `StorageMap::get`'s behaviour of
returning `Default::default()` for an absent key. -/
def mapGetD {K V : Type} [DecidableEq K] (l : List (K × V)) (k : K) (d : V) : V :=
  (mapGet l k).getD d

/-- `StorageMap::contains_key`. -/
def mapContains {K V : Type} [DecidableEq K] (l : List (K × V)) (k : K) : Bool :=
  l.any (fun p => decide (p.1 = k))

/-- `StorageMap::insert`: overwrite the binding if the key is present,
otherwise append it. -/
def mapInsert {K V : Type} [DecidableEq K] (l : List (K × V)) (k : K) (v : V) :
    List (K × V) :=
  if mapContains l k then l.map (fun p => if p.1 = k then (k, v) else p)
  else l ++ [(k, v)]

/-- `StorageMap::remove`. -/
def mapRemove {K V : Type} [DecidableEq K] (l : List (K × V)) (k : K) :
    List (K × V) :=
  l.filter (fun p => !(decide (p.1 = k)))

/-- `const MAX_VALIDATORS: u32 = 100_000;` -/
def MAX_VALIDATORS : Nat := 100000

/-- `const DAY_IN_BLOCKS: u32 = 14_400;` -/
def DAY_IN_BLOCKS : Nat := 14400

/-- `const DAY: u32 = 86_400;` -/
def DAY : Nat := 86400

/-- Largest value of the `u128` `Balance` type; the source's
`checked_add`/`checked_sub`/`checked_mul` on balances are modelled with
explicit comparisons against this bound. -/
def U128MAX : Nat := 2 ^ 128 - 1

/-- The shared `Status` enum of `types.rs`.
Modelled from the spec: `types.rs` itself is not under `src/`; §3/§4.2 of the
spec enumerate the statuses used by the four message kinds, which are exactly
the variants `bridge.rs` mentions.  `types.rs` also provides the `Default`
used when a storage map is read at an absent key; the test suite pins that
default to a status that is none of `Approved`/`Confirmed`/`Canceled` (a fresh
governance proposal's first below-quorum vote runs `set_pending` and records
status `Pending`, and `confirm_transfer` on a fresh id is rejected), so it is
modelled as a dedicated variant `initial`. -/
inductive Status where
  | initial
  | pending
  | withdraw
  | deposit
  | approved
  | canceled
  | confirmed
  | updateValidatorSet
  | updateLimits
  | pauseTheBridge
  | resumeTheBridge
deriving DecidableEq, Repr

/-- The `Kind` tag stored on a proposal (`enum Kind { Transfer, Limits,
Validator, Bridge }` of `types.rs`, with the variants `bridge.rs` dispatches
on). -/
inductive Kind where
  | transfer
  | limits
  | validator
  | bridge
deriving DecidableEq, Repr

/-- `struct Limits<Balance>` of `types.rs` as used by `bridge.rs`. -/
structure Limits where
  maxTxValue : Nat
  dayMaxLimit : Nat
  dayMaxLimitForOneAddress : Nat
  maxPendingTxLimit : Nat
  minTxValue : Nat
deriving DecidableEq, Repr

/-- `Limits::into_array`, in the order `check_limits` folds over. -/
def Limits.intoArray (l : Limits) : List Nat :=
  [l.maxTxValue, l.dayMaxLimit, l.dayMaxLimitForOneAddress,
   l.maxPendingTxLimit, l.minTxValue]

/-- `TransferMessage<AccountId, Hash, Balance>`. -/
structure TransferMessage where
  messageId : Nat
  ethAddress : Nat
  substrateAddress : Nat
  amount : Nat
  token : Nat
  status : Status
  action : Status
deriving DecidableEq, Repr

/-- The `Default` value of `TransferMessage`, returned by
`TransferMessages::get` at an absent key. -/
def defaultTransferMessage : TransferMessage :=
  { messageId := 0, ethAddress := 0, substrateAddress := 0, amount := 0,
    token := 0, status := Status.initial, action := Status.initial }

/-- `LimitMessage<Hash, Balance>`. -/
structure LimitMessage where
  id : Nat
  limits : Limits
  status : Status
deriving DecidableEq, Repr

/-- The `Default` value of `LimitMessage`. -/
def defaultLimitMessage : LimitMessage :=
  { id := 0,
    limits := { maxTxValue := 0, dayMaxLimit := 0, dayMaxLimitForOneAddress := 0,
                maxPendingTxLimit := 0, minTxValue := 0 },
    status := Status.initial }

/-- `ValidatorMessage<AccountId, Hash>`. -/
structure ValidatorMessage where
  messageId : Nat
  quorum : Nat
  accounts : List Nat
  action : Status
  status : Status
deriving DecidableEq, Repr

/-- The `Default` value of `ValidatorMessage`. -/
def defaultValidatorMessage : ValidatorMessage :=
  { messageId := 0, quorum := 0, accounts := [], status := Status.initial,
    action := Status.initial }

/-- `BridgeMessage<AccountId, Hash>`. -/
structure BridgeMessage where
  messageId : Nat
  account : Nat
  action : Status
  status : Status
deriving DecidableEq, Repr

/-- The `Default` value of `BridgeMessage`. -/
def defaultBridgeMessage : BridgeMessage :=
  { messageId := 0, account := 0, status := Status.initial,
    action := Status.initial }

/-- `BridgeTransfer<Hash>` — the proposal record.  The source field `open` is
a Lean keyword and is rendered `isOpen`. -/
structure BridgeTransfer where
  transferId : Nat
  messageId : Nat
  isOpen : Bool
  votes : Nat
  kind : Kind
deriving DecidableEq, Repr

/-- The `Default` value of `BridgeTransfer` (`bool` defaults to `false`, so a
nonexistent proposal reads as closed); the default `Kind` of `types.rs` is
irrelevant to every path that reaches it and is modelled as `transfer`. -/
def defaultBridgeTransfer : BridgeTransfer :=
  { transferId := 0, messageId := 0, isOpen := false, votes := 0,
    kind := Kind.transfer }

/-- The events of `decl_event!`, with hashes/accounts/amounts as `Nat`. -/
inductive BEvent where
  | relayMessage (h : Nat)
  | approvedRelayMessage (h tok acc eth amt : Nat)
  | cancellationConfirmedMessage (h tok : Nat)
  | mintedMessage (h tok : Nat)
  | burnedMessage (h tok acc eth amt : Nat)
  | accountPausedMessage (h acc moment tok : Nat)
  | accountResumedMessage (h acc moment tok : Nat)
deriving DecidableEq, Repr

/-- The whole storage of the pallet (`decl_storage!`), together with:
the storage of the external token ledger (`tokenBalance`, `tokenLocked`,
`tokens` — the ledger module is not under `src/`, see `lock` below), the
current timestamp `now` (what `timestamp::Module::get()` returns), and the
list of emitted events. -/
structure BridgeState where
  bridgeIsOperational : Bool
  bridgeMessages : List (Nat × BridgeMessage)
  limitMessages : List (Nat × LimitMessage)
  currentLimits : Limits
  currentPendingBurn : Nat
  currentPendingMint : Nat
  bridgeTransfers : List (Nat × BridgeTransfer)
  bridgeTransfersCount : Nat
  transferMessages : List (Nat × TransferMessage)
  transferId : List (Nat × Nat)
  messageId : List (Nat × Nat)
  dailyHolds : List (Nat × (Nat × Nat))
  dailyLimits : List ((Nat × Nat) × Nat)
  dailyBlocked : List ((Nat × Nat) × List Nat)
  quorum : Nat
  validatorsCount : Nat
  validatorVotes : List ((Nat × Nat) × Bool)
  validatorHistory : List (Nat × ValidatorMessage)
  validators : List (Nat × Bool)
  validatorAccounts : List Nat
  tokenBalance : List ((Nat × Nat) × Nat)
  tokenLocked : List ((Nat × Nat) × Nat)
  tokens : List Nat
  now : Nat
  events : List BEvent
deriving DecidableEq, Repr

/-- Result of a call: the state as mutated so far, and `none` for `Ok(())`,
`some e` for `Err(e)`. -/
abbrev CallResult := BridgeState × Option String

/-- Successful return. -/
def ok (s : BridgeState) : CallResult := (s, none)

/-- Failing return; the state mutated so far is kept (no rollback, see the
module comment). -/
def err (s : BridgeState) (e : String) : CallResult := (s, some e)

/-- Sequencing of fallible steps (the `?` operator): on error the error and
the state at the failure point propagate. -/
def bindE (r : CallResult) (f : BridgeState → CallResult) : CallResult :=
  match r with
  | (s, none) => f s
  | (s, some e) => (s, some e)

/-- Append an event (`Self::deposit_event`). -/
def pushEvent (s : BridgeState) (e : BEvent) : BridgeState :=
  { s with events := s.events ++ [e] }

/-- Content hash of the `set_transfer` tuple `(&from, &to, amount, timestamp)`.
The runtime's `Hashing::hash` of an encoded tuple is modelled as an injective
pairing into `Nat`, tagged by tuple shape so distinct shapes never collide. -/
def hashSetTransfer (sender dest amount now : Nat) : Nat :=
  Nat.pair 1 (Nat.pair sender (Nat.pair dest (Nat.pair amount now)))

/-- Content hash of the `update_limits` tuple `(limits, 0)`. -/
def hashLimits (l : Limits) : Nat :=
  Nat.pair 2 (Nat.pair l.maxTxValue (Nat.pair l.dayMaxLimit
    (Nat.pair l.dayMaxLimitForOneAddress
      (Nat.pair l.maxPendingTxLimit l.minTxValue))))

/-- Content hash of `("pause", 0)` — constant for the chain's lifetime. -/
def pauseHash : Nat := Nat.pair 3 0

/-- Content hash of `("resume", 0)` — constant for the chain's lifetime. -/
def resumeHash : Nat := Nat.pair 4 0

/-- Content hash of the `(now, account)` tuple used by the account
paused/resumed events. -/
def hashAccountMoment (now acc : Nat) : Nat := Nat.pair 5 (Nat.pair now acc)

/-- Modelled from the spec: the fungible-token ledger module (`token.rs`) is
not under `src/`.  Per §6 it provides `mint, burn, lock, unlock, balance_of,
locked`, and "all fail with an error on insufficient balance/lock or unknown
token".  `lock` escrows `amount` of the account's balance. -/
def tokenLock (tok acc amount : Nat) (s : BridgeState) : CallResult :=
  if !(s.tokens.contains tok) then err s "Token does not exist"
  else
    let bal := mapGetD s.tokenBalance (tok, acc) 0
    let lk := mapGetD s.tokenLocked (tok, acc) 0
    if lk + amount ≤ bal then
      ok { s with tokenLocked := mapInsert s.tokenLocked (tok, acc) (lk + amount) }
    else err s "Insufficient balance to lock"

/-- Modelled from the spec (§6): `unlock` releases escrowed funds; fails on
insufficient lock or unknown token. -/
def tokenUnlock (tok acc amount : Nat) (s : BridgeState) : CallResult :=
  if !(s.tokens.contains tok) then err s "Token does not exist"
  else
    let lk := mapGetD s.tokenLocked (tok, acc) 0
    if amount ≤ lk then
      ok { s with tokenLocked := mapInsert s.tokenLocked (tok, acc) (lk - amount) }
    else err s "Insufficient locked funds"

/-- Modelled from the spec (§6): `_mint` credits the account's balance; fails
on unknown token. -/
def tokenMint (tok acc amount : Nat) (s : BridgeState) : CallResult :=
  if !(s.tokens.contains tok) then err s "Token does not exist"
  else
    let bal := mapGetD s.tokenBalance (tok, acc) 0
    ok { s with tokenBalance := mapInsert s.tokenBalance (tok, acc) (bal + amount) }

/-- Modelled from the spec (§6): `_burn` debits the account's balance; fails
on insufficient balance or unknown token. -/
def tokenBurn (tok acc amount : Nat) (s : BridgeState) : CallResult :=
  if !(s.tokens.contains tok) then err s "Token does not exist"
  else
    let bal := mapGetD s.tokenBalance (tok, acc) 0
    if amount ≤ bal then
      ok { s with tokenBalance := mapInsert s.tokenBalance (tok, acc) (bal - amount) }
    else err s "Insufficient balance to burn"

/-- `balance_of((token, account))` of the ledger module (spec §6). -/
def balanceOf (tok acc : Nat) (s : BridgeState) : Nat :=
  mapGetD s.tokenBalance (tok, acc) 0

/-- `get_day_pair`: returns the `(yesterday, today)` pair of day numbers
derived from the timestamp. -/
def getDayPair (s : BridgeState) : Nat × Nat :=
  let now := s.now
  let today := now / DAY
  let yesterday := if now < DAY then 0 else now / DAY - 1
  (yesterday, today)

/-- `update_status`: rewrite the status of the message of the given kind in
place (reads the map at `id` — the type's default when absent — and writes the
updated record back).  The source always returns `Ok(())`. -/
def updateStatus (id : Nat) (status : Status) (kind : Kind) (s : BridgeState) :
    BridgeState :=
  match kind with
  | Kind.transfer =>
      let m := mapGetD s.transferMessages id defaultTransferMessage
      { s with transferMessages :=
          mapInsert s.transferMessages id { m with status := status } }
  | Kind.validator =>
      let m := mapGetD s.validatorHistory id defaultValidatorMessage
      { s with validatorHistory :=
          mapInsert s.validatorHistory id { m with status := status } }
  | Kind.bridge =>
      let m := mapGetD s.bridgeMessages id defaultBridgeMessage
      { s with bridgeMessages :=
          mapInsert s.bridgeMessages id { m with status := status } }
  | Kind.limits =>
      let m := mapGetD s.limitMessages id defaultLimitMessage
      { s with limitMessages :=
          mapInsert s.limitMessages id { m with status := status } }

/-- `check_validator`: membership test is `Validators::contains_key`. -/
def checkValidator (validator : Nat) (s : BridgeState) : CallResult :=
  if mapContains s.validators validator then ok s
  else err s "Only validators can call this function"

/-- `check_amount`: strict bounds against the current limits. -/
def checkAmount (amount : Nat) (s : BridgeState) : CallResult :=
  let max := s.currentLimits.maxTxValue
  let min := s.currentLimits.minTxValue
  if !(amount > min) then err s "Invalid amount for transaction. Reached minimum limit."
  else if !(amount < max) then err s "Invalid amount for transaction. Reached maximum limit."
  else ok s

/-- `check_pending_burn`: checked add against `u128`, then strict comparison
with `max_pending_tx_limit`. -/
def checkPendingBurn (amount : Nat) (s : BridgeState) : CallResult :=
  if s.currentPendingBurn + amount > U128MAX then
    err s "Overflow adding to new pending burn volume"
  else if s.currentPendingBurn + amount < s.currentLimits.maxPendingTxLimit then ok s
  else err s "Too many pending burn transactions."

/-- `check_pending_mint`. -/
def checkPendingMint (amount : Nat) (s : BridgeState) : CallResult :=
  if s.currentPendingMint + amount > U128MAX then
    err s "Overflow adding to new pending mint volume"
  else if s.currentPendingMint + amount < s.currentLimits.maxPendingTxLimit then ok s
  else err s "Too many pending mint transactions."

/-- `check_limits`: the source folds over `limits.into_array()` latching
`(l < Balance::max_value(), l > Balance::min_value())`; translated literally
(`Balance::min_value() = 0`, `Balance::max_value() = U128MAX`). -/
def checkLimits (limits : Limits) (s : BridgeState) : CallResult :=
  let passed := limits.intoArray.foldl
    (fun acc l =>
      match acc with
      | (true, true) => (decide (l < U128MAX), decide (l > 0))
      | (true, false) => (decide (l < U128MAX), false)
      | (false, true) => (false, decide (l > 0))
      | (false, false) => acc)
    (true, true)
  if !passed.1 then err s "Overflow setting limit"
  else if !passed.2 then err s "Underflow setting limit"
  else ok s

/-- `check_daily_account_volume`: the daily per-account cap with the per-day
blocklist side effect. -/
def checkDailyAccountVolume (tokenId account amount : Nat) (s : BridgeState) :
    CallResult :=
  let curPending := mapGetD s.dailyLimits (tokenId, account) 0
  let curPendingAccountLimit := s.currentLimits.dayMaxLimitForOneAddress
  let canBurn := decide (curPending + amount < curPendingAccountLimit)
  let today := (getDayPair s).2
  let blocked := mapGetD s.dailyBlocked (tokenId, today) []
  let userBlocked := blocked.any (fun a => decide (a = account))
  let s1 :=
    if !canBurn then
      if blocked.contains account then s
      else
        let newBlocked := mapInsert s.dailyBlocked (tokenId, today) (blocked ++ [account])
        let s' := { s with dailyBlocked := newBlocked }
        pushEvent s' (BEvent.accountPausedMessage
          (hashAccountMoment s.now account) account s.now tokenId)
    else s
  if canBurn && !userBlocked then ok s1
  else err s1 "Transfer declined, user blocked due to daily volume limit."

/-- `check_daily_holds`: the 75%-of-balance first-day withdrawal cap.  The
source computes `day_passed = first_tx.0 + daily_hold < T::BlockNumber::from(0)`
— a comparison against block number ZERO, not the current block — which is
translated literally.  On violation the `Canceled` status is committed and the
call fails (the documented side-effecting failure). -/
def checkDailyHolds (message : TransferMessage) (s : BridgeState) : CallResult :=
  let sender := message.substrateAddress
  let firstTx := mapGetD s.dailyHolds sender (0, 0)
  let dayPassed := decide (firstTx.1 + DAY_IN_BLOCKS < 0)
  if !dayPassed then
    let accountBalance := balanceOf message.token sender s
    let allowedAmount := accountBalance / 100 * 75
    if message.amount > allowedAmount then
      let s1 := updateStatus message.messageId Status.canceled Kind.transfer s
      err s1 "Cannot withdraw more that 75% of first day deposit."
    else ok s
  else ok s

/-- `create_transfer`: allocate the next sequential proposal id for a fresh
message hash.  `ProposalId`'s concrete width lives in `types.rs` (not under
`src/`); it is modelled as `Nat`, so the `checked_add` on the counter cannot
fail here. -/
def createTransfer (transferHash : Nat) (kind : Kind) (s : BridgeState) :
    CallResult :=
  if mapContains s.transferId transferHash then err s "This transfer already open"
  else
    let transferId := s.bridgeTransfersCount
    let newCount := s.bridgeTransfersCount + 1
    let transfer : BridgeTransfer :=
      { transferId := transferId, messageId := transferHash, isOpen := true,
        votes := 0, kind := kind }
    ok { s with
      bridgeTransfers := mapInsert s.bridgeTransfers transferId transfer,
      bridgeTransfersCount := newCount,
      transferId := mapInsert s.transferId transferHash transferId,
      messageId := mapInsert s.messageId transferId transferHash }

/-- `get_transfer_id_checked`: create a proposal only if none exists for the
hash. -/
def getTransferIdChecked (transferHash : Nat) (kind : Kind) (s : BridgeState) :
    CallResult :=
  if !(mapContains s.transferId transferHash) then createTransfer transferHash kind s
  else ok s

/-- `add_pending_burn` (checked add on the `u128` aggregate). -/
def addPendingBurn (message : TransferMessage) (s : BridgeState) : CallResult :=
  if s.currentPendingBurn + message.amount > U128MAX then
    err s "Overflow adding to new pending burn volume"
  else ok { s with currentPendingBurn := s.currentPendingBurn + message.amount }

/-- `add_pending_mint`. -/
def addPendingMint (message : TransferMessage) (s : BridgeState) : CallResult :=
  if s.currentPendingMint + message.amount > U128MAX then
    err s "Overflow adding to new pending mint volume"
  else ok { s with currentPendingMint := s.currentPendingMint + message.amount }

/-- `sub_pending_burn` (checked sub). -/
def subPendingBurn (message : TransferMessage) (s : BridgeState) : CallResult :=
  if message.amount ≤ s.currentPendingBurn then
    ok { s with currentPendingBurn := s.currentPendingBurn - message.amount }
  else err s "Overflow subtracting to new pending burn volume"

/-- `sub_pending_mint`. -/
def subPendingMint (message : TransferMessage) (s : BridgeState) : CallResult :=
  if message.amount ≤ s.currentPendingMint then
    ok { s with currentPendingMint := s.currentPendingMint - message.amount }
  else err s "Overflow subtracting to new pending mint volume"

/-- `votes_are_enough`.  The source computes
`votes as f64 / f64::from(validators_count()) >= 0.51` in IEEE-754 double
precision, reading the CURRENT `ValidatorsCount`.  For every value this pallet
can feed it (`1 ≤ votes ≤ 2^53`, `count ≤ MAX_VALIDATORS`) the double
comparison holds exactly iff `100 * votes ≥ 51 * count`: when the exact
quotient differs from 51/100 it differs by at least `1/(100·count) ≥ 10^-7`,
far above the rounding error of the conversion, the division and of the
literal `0.51` (each below `2^-52`), and when it equals 51/100 both sides are
true; for `count = 0` the division yields `+inf ≥ 0.51` for `votes ≥ 1`,
matching `100·votes ≥ 0`.  The spec itself (§9) records this integer form as
the exact intended semantics.  `votes_are_enough` is only called with
`votes ≥ 1` (the vote counter is incremented first). -/
def votesAreEnough (s : BridgeState) (votes : Nat) : Bool :=
  100 * votes ≥ 51 * s.validatorsCount

/-- `lock_for_burn`: escrow the sender's funds through the ledger. -/
def lockForBurn (message : TransferMessage) (account : Nat) (s : BridgeState) :
    CallResult :=
  tokenLock message.token account message.amount s

/-- `deposit`: the actual mint at quorum for an inbound transfer; records the
first-deposit entry (at block number 0, as the source writes
`T::BlockNumber::from(0)`) if none exists. -/
def deposit (message : TransferMessage) (s : BridgeState) : CallResult :=
  bindE (subPendingMint message s) fun s1 =>
    let toAcc := message.substrateAddress
    let s2 :=
      if mapContains s1.dailyHolds toAcc then s1
      else { s1 with dailyHolds := mapInsert s1.dailyHolds toAcc (0, message.messageId) }
    bindE (tokenMint message.token toAcc message.amount s2) fun s3 =>
      let s4 := pushEvent s3 (BEvent.mintedMessage message.messageId message.token)
      ok (updateStatus message.messageId Status.confirmed Kind.transfer s4)

/-- `withdraw`: at quorum for an outbound transfer, check the first-day cap,
release the pending-burn aggregate, escrow the funds, emit the approval event
and set status `Approved`. -/
def withdraw (message : TransferMessage) (s : BridgeState) : CallResult :=
  bindE (checkDailyHolds message s) fun s1 =>
    bindE (subPendingBurn message s1) fun s2 =>
      let toEth := message.ethAddress
      let sender := message.substrateAddress
      bindE (lockForBurn message sender s2) fun s3 =>
        let s4 := pushEvent s3 (BEvent.approvedRelayMessage message.messageId
          message.token sender toEth message.amount)
        ok (updateStatus message.messageId Status.approved Kind.transfer s4)

/-- `_cancel_transfer`: unlock the escrow and set status `Canceled`. -/
def cancelTransferEffect (message : TransferMessage) (s : BridgeState) : CallResult :=
  bindE (tokenUnlock message.token message.substrateAddress message.amount s) fun s1 =>
    ok (updateStatus message.messageId Status.canceled Kind.transfer s1)

/-- `pause_the_bridge`: flip the operational flag off. -/
def pauseTheBridge (message : BridgeMessage) (s : BridgeState) : CallResult :=
  let s1 := { s with bridgeIsOperational := false }
  ok (updateStatus message.messageId Status.confirmed Kind.bridge s1)

/-- `resume_the_bridge`: flip the operational flag on. -/
def resumeTheBridge (message : BridgeMessage) (s : BridgeState) : CallResult :=
  let s1 := { s with bridgeIsOperational := true }
  ok (updateStatus message.messageId Status.confirmed Kind.bridge s1)

/-- `_update_limits`: validate and install the new limits. -/
def updateLimitsEffect (message : LimitMessage) (s : BridgeState) : CallResult :=
  bindE (checkLimits message.limits s) fun s1 =>
    let s2 := { s1 with currentLimits := message.limits }
    ok (updateStatus message.id Status.confirmed Kind.limits s2)

/-- `manage_validator_list`: install the new validator set, count and stored
quorum.  Old validators are never removed; the new accounts are inserted. -/
def manageValidatorList (info : ValidatorMessage) (s : BridgeState) : CallResult :=
  let newCount := info.accounts.length
  if !(newCount < MAX_VALIDATORS) then
    err s "New validator list is exceeding allowed length."
  else
    let s1 := { s with
      quorum := info.quorum,
      validatorsCount := newCount,
      validators := info.accounts.foldl (fun m v => mapInsert m v true) s.validators }
    ok (updateStatus info.messageId Status.confirmed Kind.validator s1)

/-- `execute_burn`: burn the escrowed funds of a confirmed withdraw (re-reads
the message from storage) and decrement the daily volume counter (the source
uses an unchecked `-=`; modelled with truncated subtraction). -/
def executeBurn (messageId : Nat) (s : BridgeState) : CallResult :=
  let message := mapGetD s.transferMessages messageId defaultTransferMessage
  let sender := message.substrateAddress
  let toEth := message.ethAddress
  bindE (tokenUnlock message.token sender message.amount s) fun s1 =>
    bindE (tokenBurn message.token sender message.amount s1) fun s2 =>
      let dl := mapGetD s2.dailyLimits (message.token, sender) 0
      let newDaily := mapInsert s2.dailyLimits (message.token, sender) (dl - message.amount)
      let s3 := { s2 with dailyLimits := newDaily }
      ok (pushEvent s3 (BEvent.burnedMessage messageId message.token sender toEth
        message.amount))

/-- `execute_transfer`: dispatch on `(action, status)`. -/
def executeTransfer (message : TransferMessage) (s : BridgeState) : CallResult :=
  match message.action with
  | Status.deposit =>
      match message.status with
      | Status.approved => deposit message s
      | Status.canceled => cancelTransferEffect message s
      | _ => err s "Tried to deposit with non-supported status"
  | Status.withdraw =>
      match message.status with
      | Status.confirmed => executeBurn message.messageId s
      | Status.approved => withdraw message s
      | Status.canceled => cancelTransferEffect message s
      | _ => err s "Tried to withdraw with non-supported status"
  | _ => err s "Tried to execute transfer with non-supported status"

/-- `manage_bridge`: dispatch on `(action, status)`. -/
def manageBridge (message : BridgeMessage) (s : BridgeState) : CallResult :=
  match message.action with
  | Status.pauseTheBridge =>
      match message.status with
      | Status.approved => pauseTheBridge message s
      | _ => err s "Tried to pause the bridge with non-supported status"
  | Status.resumeTheBridge =>
      match message.status with
      | Status.approved => resumeTheBridge message s
      | _ => err s "Tried to resume the bridge with non-supported status"
  | _ => err s "Tried to manage bridge with non-supported status"

/-- `set_pending`: for `Transfer`-kind proposals add the amount to the pending
aggregate of the message's direction, then set status `Pending`. -/
def setPending (transferId : Nat) (kind : Kind) (s : BridgeState) : CallResult :=
  let messageId := mapGetD s.messageId transferId 0
  let r :=
    match kind with
    | Kind.transfer =>
        let message := mapGetD s.transferMessages messageId defaultTransferMessage
        match message.action with
        | Status.withdraw => addPendingBurn message s
        | Status.deposit => addPendingMint message s
        | _ => ok s
    | _ => ok s
  bindE r fun s1 => ok (updateStatus messageId Status.pending kind s1)

/-- `_sign`: the voting core.  Reads the proposal and all four message maps
up front, rejects a second vote by the same validator and votes on closed
proposals, increments the tally, and either (at quorum, per the CURRENT
validator count) marks the message `Approved` (unless already terminal),
executes the kind's effect handler and closes the proposal, or (below quorum)
routes through `set_pending` (unless terminal); finally records the vote and
writes the proposal back — those two writes are skipped when an effect handler
fails, but every write the handler already performed persists. -/
def sign (validator transferId : Nat) (s : BridgeState) : CallResult :=
  let transfer := mapGetD s.bridgeTransfers transferId defaultBridgeTransfer
  let message := mapGetD s.transferMessages transfer.messageId defaultTransferMessage
  let limitMessage := mapGetD s.limitMessages transfer.messageId defaultLimitMessage
  let validatorMessage :=
    mapGetD s.validatorHistory transfer.messageId defaultValidatorMessage
  let bridgeMessage := mapGetD s.bridgeMessages transfer.messageId defaultBridgeMessage
  let voted := mapGetD s.validatorVotes (transferId, validator) false
  if voted then err s "This validator has already voted."
  else if !transfer.isOpen then err s "This transfer is not open"
  else
    let votes := transfer.votes + 1
    let quorum := votesAreEnough s votes
    let terminal := message.status = Status.confirmed ∨
      message.status = Status.canceled
    let r :=
      if quorum then
        let message' :=
          if ¬terminal ∧ transfer.kind = Kind.transfer then
            { message with status := Status.approved } else message
        let limitMessage' :=
          if ¬terminal ∧ transfer.kind = Kind.limits then
            { limitMessage with status := Status.approved } else limitMessage
        let validatorMessage' :=
          if ¬terminal ∧ transfer.kind = Kind.validator then
            { validatorMessage with status := Status.approved } else validatorMessage
        let bridgeMessage' :=
          if ¬terminal ∧ transfer.kind = Kind.bridge then
            { bridgeMessage with status := Status.approved } else bridgeMessage
        match transfer.kind with
        | Kind.transfer => executeTransfer message' s
        | Kind.limits => updateLimitsEffect limitMessage' s
        | Kind.validator => manageValidatorList validatorMessage' s
        | Kind.bridge => manageBridge bridgeMessage' s
      else
        if terminal then ok s else setPending transferId transfer.kind s
    bindE r fun s1 =>
      let transfer' :=
        if quorum then { transfer with votes := votes, isOpen := false }
        else { transfer with votes := votes }
      ok { s1 with
        validatorVotes := mapInsert s1.validatorVotes (transferId, validator) true,
        bridgeTransfers := mapInsert s1.bridgeTransfers transferId transfer' }

/-- `reopen_for_burn_confirmation`: if the message is terminal
(`Confirmed`/`Canceled`) and the proposal at `TransferId[message_id]` is
closed, reset its votes to 0, reopen it, and reset the recorded votes of the
accounts in `ValidatorAccounts` (the genesis validator list — the only place
that storage item is ever read, and it is never updated). -/
def reopenForBurnConfirmation (messageId : Nat) (s : BridgeState) : CallResult :=
  let message := mapGetD s.transferMessages messageId defaultTransferMessage
  let transferId := mapGetD s.transferId messageId 0
  let transfer := mapGetD s.bridgeTransfers transferId defaultBridgeTransfer
  let isEthResponse := message.status = Status.confirmed ∨
    message.status = Status.canceled
  if !transfer.isOpen ∧ isEthResponse then
    let transfer' := { transfer with votes := 0, isOpen := true }
    let votes' := s.validatorAccounts.foldl
      (fun m a => mapInsert m (transferId, a) false) s.validatorVotes
    ok { s with
      bridgeTransfers := mapInsert s.bridgeTransfers transferId transfer',
      validatorVotes := votes' }
  else ok s

/-- Dispatchable `set_transfer(origin, to, token_id, amount)`: initiate an
outbound (substrate → ethereum) transfer. -/
def setTransfer (sender dest tokenId amount : Nat) (s : BridgeState) : CallResult :=
  if !s.bridgeIsOperational then err s "Bridge is not operational"
  else
    bindE (checkAmount amount s) fun s1 =>
    bindE (checkPendingBurn amount s1) fun s2 =>
    bindE (checkDailyAccountVolume tokenId sender amount s2) fun s3 =>
      let transferHash := hashSetTransfer sender dest amount s3.now
      let message : TransferMessage :=
        { messageId := transferHash, ethAddress := dest, substrateAddress := sender,
          amount := amount, token := tokenId, status := Status.withdraw,
          action := Status.withdraw }
      bindE (getTransferIdChecked transferHash Kind.transfer s3) fun s4 =>
        let s5 := pushEvent s4 (BEvent.relayMessage transferHash)
        let dl := mapGetD s5.dailyLimits (tokenId, sender) 0
        let newDaily := mapInsert s5.dailyLimits (tokenId, sender) (dl + amount)
        ok { s5 with
          dailyLimits := newDaily,
          transferMessages := mapInsert s5.transferMessages transferHash message }

/-- Dispatchable `multi_signed_mint(origin, message_id, from, to, token_id,
amount)`: a validator attests to an inbound deposit. -/
def multiSignedMint (validator messageId fromEth toAcc tokenId amount : Nat)
    (s : BridgeState) : CallResult :=
  if !s.bridgeIsOperational then err s "Bridge is not operational"
  else
    bindE (checkValidator validator s) fun s1 =>
    bindE (checkPendingMint amount s1) fun s2 =>
    bindE (checkAmount amount s2) fun s3 =>
      let r :=
        if !(mapContains s3.transferMessages messageId) then
          let message : TransferMessage :=
            { messageId := messageId, ethAddress := fromEth,
              substrateAddress := toAcc, amount := amount, token := tokenId,
              status := Status.deposit, action := Status.deposit }
          let s4 := { s3 with
            transferMessages := mapInsert s3.transferMessages messageId message }
          getTransferIdChecked messageId Kind.transfer s4
        else ok s3
      bindE r fun s5 =>
        let transferId := mapGetD s5.transferId messageId 0
        sign validator transferId s5

/-- Dispatchable `update_limits(origin, ...)`: propose a limits change (note:
no bridge-operational check). -/
def updateLimits (validator maxTxValue dayMaxLimit dayMaxLimitForOneAddress
    maxPendingTxLimit minTxValue : Nat) (s : BridgeState) : CallResult :=
  bindE (checkValidator validator s) fun s1 =>
    let limits : Limits :=
      { maxTxValue := maxTxValue, dayMaxLimit := dayMaxLimit,
        dayMaxLimitForOneAddress := dayMaxLimitForOneAddress,
        maxPendingTxLimit := maxPendingTxLimit, minTxValue := minTxValue }
    bindE (checkLimits limits s1) fun s2 =>
      let id := hashLimits limits
      let r :=
        if !(mapContains s2.limitMessages id) then
          let message : LimitMessage :=
            { id := id, limits := limits, status := Status.updateLimits }
          let s3 := { s2 with limitMessages := mapInsert s2.limitMessages id message }
          getTransferIdChecked id Kind.limits s3
        else ok s2
      bindE r fun s4 =>
        let transferId := mapGetD s4.transferId id 0
        sign validator transferId s4

/-- Dispatchable `approve_transfer(origin, message_id)`: a validator's vote on
a relayed outbound transfer. -/
def approveTransfer (validator messageId : Nat) (s : BridgeState) : CallResult :=
  if !s.bridgeIsOperational then err s "Bridge is not operational"
  else
    bindE (checkValidator validator s) fun s1 =>
      let id := mapGetD s1.transferId messageId 0
      sign validator id s1

/-- Dispatchable `update_validator_list(origin, message_id, quorum,
new_validator_list)` (no bridge-operational check). -/
def updateValidatorList (validator messageId quorum : Nat)
    (newValidatorList : List Nat) (s : BridgeState) : CallResult :=
  bindE (checkValidator validator s) fun s1 =>
    let r :=
      if !(mapContains s1.validatorHistory messageId) then
        let message : ValidatorMessage :=
          { messageId := messageId, quorum := quorum, accounts := newValidatorList,
            action := Status.updateValidatorSet, status := Status.updateValidatorSet }
        let s2 := { s1 with
          validatorHistory := mapInsert s1.validatorHistory messageId message }
        getTransferIdChecked messageId Kind.validator s2
      else ok s1
    bindE r fun s3 =>
      let id := mapGetD s3.transferId messageId 0
      sign validator id s3

/-- Dispatchable `pause_bridge(origin)`: the message id is the constant hash
of `("pause", 0)`. -/
def pauseBridge (validator : Nat) (s : BridgeState) : CallResult :=
  bindE (checkValidator validator s) fun s1 =>
    if !s1.bridgeIsOperational then err s1 "Bridge is not operational already"
    else
      let hash := pauseHash
      let r :=
        if !(mapContains s1.bridgeMessages hash) then
          let message : BridgeMessage :=
            { messageId := hash, account := validator,
              action := Status.pauseTheBridge, status := Status.pauseTheBridge }
          let s2 := { s1 with bridgeMessages := mapInsert s1.bridgeMessages hash message }
          getTransferIdChecked hash Kind.bridge s2
        else ok s1
      bindE r fun s3 =>
        let id := mapGetD s3.transferId hash 0
        sign validator id s3

/-- Dispatchable `resume_bridge(origin)`: the message id is the constant hash
of `("resume", 0)` (no bridge-operational check). -/
def resumeBridge (validator : Nat) (s : BridgeState) : CallResult :=
  bindE (checkValidator validator s) fun s1 =>
    let hash := resumeHash
    let r :=
      if !(mapContains s1.bridgeMessages hash) then
        let message : BridgeMessage :=
          { messageId := hash, account := validator,
            action := Status.resumeTheBridge, status := Status.resumeTheBridge }
        let s2 := { s1 with bridgeMessages := mapInsert s1.bridgeMessages hash message }
        getTransferIdChecked hash Kind.bridge s2
      else ok s1
    bindE r fun s3 =>
      let id := mapGetD s3.transferId hash 0
      sign validator id s3

/-- Dispatchable `confirm_transfer(origin, message_id)`: requires status
`Approved` or `Confirmed`; commits `Confirmed`, reopens the proposal, then
votes. -/
def confirmTransfer (validator messageId : Nat) (s : BridgeState) : CallResult :=
  if !s.bridgeIsOperational then err s "Bridge is not operational"
  else
    bindE (checkValidator validator s) fun s1 =>
      let id := mapGetD s1.transferId messageId 0
      let st := (mapGetD s1.transferMessages messageId defaultTransferMessage).status
      let isApproved := st = Status.approved ∨ st = Status.confirmed
      if ¬isApproved then err s1 "This transfer must be approved first."
      else
        let s2 := updateStatus messageId Status.confirmed Kind.transfer s1
        bindE (reopenForBurnConfirmation messageId s2) fun s3 =>
          sign validator id s3

/-- Dispatchable `cancel_transfer(origin, message_id)`: rejected only for an
already-`Confirmed` message; commits `Canceled`, reopens the proposal, then
votes (no bridge-operational check). -/
def cancelTransfer (validator messageId : Nat) (s : BridgeState) : CallResult :=
  bindE (checkValidator validator s) fun s1 =>
    let hasBurned := mapContains s1.transferMessages messageId ∧
      (mapGetD s1.transferMessages messageId defaultTransferMessage).status =
        Status.confirmed
    if hasBurned then err s1 "Failed to cancel. This transfer is already executed."
    else
      let id := mapGetD s1.transferId messageId 0
      let s2 := updateStatus messageId Status.canceled Kind.transfer s1
      bindE (reopenForBurnConfirmation messageId s2) fun s3 =>
        sign validator id s3

/-- Sum of the amounts of transfer messages currently in `Pending` status for
a given action (`Withdraw` for the burn direction, `Deposit` for the mint
direction) — what the spec's pending-aggregate invariant compares the
counters to. -/
def pendingSum (s : BridgeState) (action : Status) : Nat :=
  s.transferMessages.foldl
    (fun acc p =>
      if p.2.status = Status.pending ∧ p.2.action = action then acc + p.2.amount
      else acc) 0

/-- A genesis state: all maps empty, the configured validator accounts (each
inserted with value `true`, as the `build` closure does), the configured
count and limits, the stored quorum at its declared default `2`, one token
with id 0, and the given initial token balances. -/
def mkGenesis (vals : List Nat) (count : Nat) (lims : Limits)
    (balances : List ((Nat × Nat) × Nat)) (nowT : Nat) : BridgeState :=
  { bridgeIsOperational := true
    bridgeMessages := []
    limitMessages := []
    currentLimits := lims
    currentPendingBurn := 0
    currentPendingMint := 0
    bridgeTransfers := []
    bridgeTransfersCount := 0
    transferMessages := []
    transferId := []
    messageId := []
    dailyHolds := []
    dailyLimits := []
    dailyBlocked := []
    quorum := 2
    validatorsCount := count
    validatorVotes := []
    validatorHistory := []
    validators := vals.map (fun a => (a, true))
    validatorAccounts := vals
    tokenBalance := balances
    tokenLocked := []
    tokens := [0]
    now := nowT
    events := [] }

/-- The limit configuration of the repository's test suite:
`current_limits: vec![100, 200, 50, 400, 1]`. -/
def testLimits : Limits :=
  { maxTxValue := 100, dayMaxLimit := 200, dayMaxLimitForOneAddress := 50,
    maxPendingTxLimit := 400, minTxValue := 1 }

/-- A roomier limit configuration used by some scenarios (a well-formed
genesis choice; every field strictly inside the `u128` bounds). -/
def wideLimits : Limits :=
  { maxTxValue := 1000, dayMaxLimit := 2000, dayMaxLimitForOneAddress := 500,
    maxPendingTxLimit := 4000, minTxValue := 1 }

/-- The test suite's genesis: validators 1, 2, 3, count 3. -/
def genesis3 : BridgeState := mkGenesis [1, 2, 3] 3 testLimits [] 0

/-- A four-validator genesis (user 6 holds 600 of token 0): with count 4 the
quorum needs 3 votes (`100·2 < 51·4`), so a proposal can receive two
below-quorum votes. -/
def genesis4 : BridgeState := mkGenesis [1, 2, 3, 4] 4 testLimits [((0, 6), 600)] 0

/-- The message id of a `set_transfer` by account 6 to address 88 of 49
tokens at timestamp 0. -/
def mid49 : Nat := hashSetTransfer 6 88 49 0

/-- Scenario (claim C2): on `genesis4`, account 6 initiates a withdrawal of
49 and validators 1 and 2 vote; both votes are below quorum (1/4 and 2/4). -/
def c2State : BridgeState :=
  (approveTransfer 2 mid49 (approveTransfer 1 mid49
    (setTransfer 6 88 0 49 genesis4).1).1).1

/-- Result of the second (still below-quorum) vote of the C2 scenario. -/
def c2Last : CallResult :=
  approveTransfer 2 mid49 (approveTransfer 1 mid49
    (setTransfer 6 88 0 49 genesis4).1).1

/-- Three-validator genesis in which user 6 holds 600 of token 0. -/
def genesis3b : BridgeState := mkGenesis [1, 2, 3] 3 testLimits [((0, 6), 600)] 0

/-- Scenario (claims C4/C6): starting from `genesis3b`, the validator set is
replaced by {1,2,3,4} (two votes reach the 2/3 quorum), account 6 initiates a
withdrawal of 49 (proposal 1), and validators 4, 1, 2 vote; the third vote is
the 3/4 quorum, so the message is `Approved`, funds locked, proposal closed —
with validator 4's vote recorded. -/
def c4Approved : BridgeState :=
  (approveTransfer 2 mid49 (approveTransfer 1 mid49 (approveTransfer 4 mid49
    (setTransfer 6 88 0 49
      (updateValidatorList 1 700 3 [1, 2, 3, 4]
        (updateValidatorList 2 700 3 [1, 2, 3, 4] genesis3b).1).1).1).1).1).1

/-- C4 probe: genesis validator 3 cancels the approved withdrawal. -/
def c4Cancel : CallResult := cancelTransfer 3 mid49 c4Approved

/-- C6 probe: the already-voted non-genesis validator 4 cancels the approved
withdrawal. -/
def c6Cancel : CallResult := cancelTransfer 4 mid49 c4Approved

/-- Scenario (claim C5): a deposit of 99 reaches quorum with the votes of
validators 2 and 1; the proposal is closed and the message `Confirmed`. -/
def c5Confirmed : BridgeState :=
  (multiSignedMint 1 500 77 6 0 99 (multiSignedMint 2 500 77 6 0 99 genesis3).1).1

/-- C5 probe: validator 1 re-submits the same mint after closure. -/
def c5Revote : CallResult := multiSignedMint 1 500 77 6 0 99 c5Confirmed

/-- Scenario (claim C10): pause reaches quorum with validators 2 and 1; the
bridge is paused and the pause proposal closed. -/
def c10Paused : BridgeState := (pauseBridge 1 (pauseBridge 2 genesis3).1).1

/-- C10 probe: validator 3 (who never voted) calls `pause_bridge` again. -/
def c10Repause : CallResult := pauseBridge 3 c10Paused

/-- Scenario (claim C1): on a wide-limits genesis, a deposit of 200 to
account 6 reaches quorum (recording account 6's first deposit), and then —
`w` whole days later — account 6 attempts to withdraw 160 (which exceeds 75%
of its balance of 200) and validators 1 and 2 vote. -/
def c1Attempt (w : Nat) : CallResult :=
  let g := mkGenesis [1, 2, 3] 3 wideLimits [] 0
  let afterMint :=
    (multiSignedMint 1 900 77 6 0 200 (multiSignedMint 2 900 77 6 0 200 g).1).1
  let later := { afterMint with now := DAY * w }
  let mid := hashSetTransfer 6 88 160 (DAY * w)
  approveTransfer 2 mid
    (approveTransfer 1 mid (setTransfer 6 88 0 160 later).1).1


/-- `eraseQuorum` forgets the stored `Quorum` value (used to state that an
operation's behaviour does not depend on it). -/
def eraseQuorum (s : BridgeState) : BridgeState := { s with quorum := 0 }

/-- A state transformer commutes with overwriting the stored `Quorum` iff it
neither reads nor writes that storage item. -/
def SetQ (f : BridgeState → CallResult) : Prop :=
  ∀ s q, f { s with quorum := q } = ({ (f s).1 with quorum := q }, (f s).2)

/-- Pure analogue of `SetQ` for `BridgeState → BridgeState` transformers. -/
def SetQP (p : BridgeState → BridgeState) : Prop :=
  ∀ s q, p { s with quorum := q } = { p s with quorum := q }

/-- Witness scenario for the 75%-cap code bug: account 6 holds 200 of
token 0, its first recorded deposit entry points at message 900 (stored, as
`deposit` writes it, with block number 0), and 100 whole days have elapsed. -/
def c1WitnessState : BridgeState :=
  { genesis3 with
    tokenBalance := [((0, 6), 200)],
    dailyHolds := [(6, (0, 900))],
    now := DAY * 100 }

/-- Witness withdrawal: 160 of a balance of 200 (above 75%). -/
def c1WitnessMessage : TransferMessage :=
  { messageId := 77, ethAddress := 88, substrateAddress := 6, amount := 160,
    token := 0, status := Status.withdraw, action := Status.withdraw }

/-- Witness scenario for a below-quorum vote: `genesis4` right after the
withdrawal of 49 was initiated (proposal 0, zero votes, count 4). -/
def wPendingState : BridgeState := (setTransfer 6 88 0 49 genesis4).1

/-- Witness scenario for a Bridge-kind quorum vote: `genesis3` right after
validator 2's first `pause_bridge` call (pause proposal 0 open with one
vote; the next vote is 2 of 3 ≥ 51%). -/
def wPauseState : BridgeState := (pauseBridge 2 genesis3).1

/-- Witness scenario for a quorum-reaching vote: `genesis3b` after the
withdrawal of 49 was initiated and validator 1 voted (1 of 3; the next vote
is 2 of 3 ≥ 51%). -/
def wQuorumState : BridgeState :=
  (approveTransfer 1 mid49 (setTransfer 6 88 0 49 genesis3b).1).1

/-- Witness scenario for the daily blocklist: the state right after account 6
was rejected (and blocked) for attempting 100 against the per-address limit
of 50. -/
def wBlockedState : BridgeState := (checkDailyAccountVolume 0 6 100 genesis3b).1

/-- Witness scenario: after the pause proposal closed, the resume proposal
also reaches quorum with validators 1 and 2 and closes; the bridge is
operational again and both governance proposals are closed. -/
def c10Resumed : BridgeState :=
  (resumeBridge 2 (resumeBridge 1 c10Paused).1).1

-- ===== Theorems =====

theorem mapGet_of_contains_eq_false {K V : Type} [DecidableEq K]
    (l : List (K × V)) (k : K) (h : mapContains l k = false) :
    mapGet l k = none := by
  induction l with
  | nil => rfl
  | cons p t ih =>
      simp only [mapContains, List.any_cons, Bool.or_eq_false_iff,
        decide_eq_false_iff_not] at h
      unfold mapGet
      rw [List.find?_cons_of_neg _ (by simpa using h.1)]
      exact ih (by simp [mapContains, h.2])

theorem mapGet_replace_of_ne {K V : Type} [DecidableEq K]
    (l : List (K × V)) (k k' : K) (v : V) (h : k' ≠ k) :
    mapGet (l.map (fun p => if p.1 = k then (k, v) else p)) k' = mapGet l k' := by
  induction l with
  | nil => rfl
  | cons p t ih =>
      by_cases hp : p.1 = k
      · rw [List.map_cons, if_pos hp]
        unfold mapGet
        rw [List.find?_cons_of_neg _ (by simpa using Ne.symm h),
          List.find?_cons_of_neg _ (by simp [hp]; exact Ne.symm h)]
        exact ih
      · rw [List.map_cons, if_neg hp]
        by_cases hq : p.1 = k'
        · unfold mapGet
          rw [List.find?_cons_of_pos _ (by simpa using hq),
            List.find?_cons_of_pos _ (by simpa using hq)]
        · unfold mapGet
          rw [List.find?_cons_of_neg _ (by simpa using hq),
            List.find?_cons_of_neg _ (by simpa using hq)]
          exact ih

theorem mapGet_replace_self {K V : Type} [DecidableEq K]
    (l : List (K × V)) (k : K) (v : V) (hc : mapContains l k = true) :
    mapGet (l.map (fun p => if p.1 = k then (k, v) else p)) k = some v := by
  induction l with
  | nil => simp [mapContains] at hc
  | cons p t ih =>
      by_cases hp : p.1 = k
      · rw [List.map_cons, if_pos hp]
        unfold mapGet
        rw [List.find?_cons_of_pos _ (by simp)]
        rfl
      · simp only [mapContains, List.any_cons, decide_eq_true_eq,
          Bool.or_eq_true] at hc
        rcases hc with hc | hc
        · exact absurd hc hp
        · rw [List.map_cons, if_neg hp]
          unfold mapGet
          rw [List.find?_cons_of_neg _ (by simpa using hp)]
          exact ih hc

theorem mapGet_append_single_of_ne {K V : Type} [DecidableEq K]
    (l : List (K × V)) (k k' : K) (v : V) (h : k' ≠ k) :
    mapGet (l ++ [(k, v)]) k' = mapGet l k' := by
  induction l with
  | nil =>
      unfold mapGet
      rw [List.nil_append, List.find?_cons_of_neg _ (by simpa using Ne.symm h)]
  | cons p t ih =>
      rw [List.cons_append]
      by_cases hq : p.1 = k'
      · unfold mapGet
        rw [List.find?_cons_of_pos _ (by simpa using hq),
          List.find?_cons_of_pos _ (by simpa using hq)]
      · unfold mapGet
        rw [List.find?_cons_of_neg _ (by simpa using hq),
          List.find?_cons_of_neg _ (by simpa using hq)]
        exact ih

theorem mapGet_append_single_self {K V : Type} [DecidableEq K]
    (l : List (K × V)) (k : K) (v : V) (hc : mapContains l k = false) :
    mapGet (l ++ [(k, v)]) k = some v := by
  induction l with
  | nil =>
      unfold mapGet
      rw [List.nil_append, List.find?_cons_of_pos _ (by simp)]
      rfl
  | cons p t ih =>
      simp only [mapContains, List.any_cons, Bool.or_eq_false_iff,
        decide_eq_false_iff_not] at hc
      rw [List.cons_append]
      unfold mapGet
      rw [List.find?_cons_of_neg _ (by simpa using hc.1)]
      exact ih (by simp [mapContains, hc.2])

/-- Characterization of `mapGet` after `mapInsert`. -/
theorem mapGet_insert {K V : Type} [DecidableEq K]
    (l : List (K × V)) (k k' : K) (v : V) :
    mapGet (mapInsert l k v) k' = if k' = k then some v else mapGet l k' := by
  by_cases hk : k' = k
  · subst hk
    simp only [if_pos rfl]
    unfold mapInsert
    by_cases hc : mapContains l k'
    · rw [if_pos hc]; exact mapGet_replace_self l k' v hc
    · rw [if_neg hc]
      exact mapGet_append_single_self l k' v (by simpa using hc)
  · simp only [if_neg hk]
    unfold mapInsert
    by_cases hc : mapContains l k
    · rw [if_pos hc]; exact mapGet_replace_of_ne l k k' v hk
    · rw [if_neg hc]; exact mapGet_append_single_of_ne l k k' v hk

theorem mapGetD_insert {K V : Type} [DecidableEq K]
    (l : List (K × V)) (k k' : K) (v d : V) :
    mapGetD (mapInsert l k v) k' d = if k' = k then v else mapGetD l k' d := by
  unfold mapGetD
  rw [mapGet_insert]
  by_cases hk : k' = k <;> simp [hk]

theorem mapGetD_insert_self {K V : Type} [DecidableEq K]
    (l : List (K × V)) (k : K) (v d : V) :
    mapGetD (mapInsert l k v) k d = v := by
  simp [mapGetD_insert]

theorem mapGetD_insert_of_ne {K V : Type} [DecidableEq K]
    (l : List (K × V)) (k k' : K) (v d : V) (h : k' ≠ k) :
    mapGetD (mapInsert l k v) k' d = mapGetD l k' d := by
  simp [mapGetD_insert, h]

/-- Effect of `reopen_for_burn_confirmation`'s vote-clearing fold on a single
vote entry for the same proposal: cleared exactly for the accounts in the
folded list. -/
theorem mapGetD_foldl_clear (L : List Nat) (m : List ((Nat × Nat) × Bool))
    (tid a : Nat) :
    mapGetD (L.foldl (fun mm x => mapInsert mm (tid, x) false) m) (tid, a) false =
      if a ∈ L then false else mapGetD m (tid, a) false := by
  induction L generalizing m with
  | nil => simp
  | cons x t ih =>
      simp only [List.foldl_cons, ih, List.mem_cons]
      by_cases hx : a = x
      · subst hx
        by_cases hm : a ∈ t <;> simp [hm, mapGetD_insert_self]
      · by_cases hm : a ∈ t
        · simp [hm, hx]
        · have hne : ((tid, a) : Nat × Nat) ≠ (tid, x) := by
            simp [Prod.ext_iff, hx]
          simp [hm, hx, mapGetD_insert_of_ne _ _ _ _ _ hne]

/-- Helper: a vote (`_sign`) on a closed proposal is rejected before any
write: "already voted" if this validator's vote is recorded, "not open"
otherwise, and the state is returned unchanged. -/
theorem sign_closed (s : BridgeState) (v tid : Nat)
    (h : (mapGetD s.bridgeTransfers tid defaultBridgeTransfer).isOpen = false) :
    sign v tid s =
      (s, some (if mapGetD s.validatorVotes (tid, v) false = true
                then "This validator has already voted."
                else "This transfer is not open")) := by
  unfold sign
  cases hv : mapGetD s.validatorVotes (tid, v) false <;> simp [hv, h, err]

theorem SetQ.bindE_comp {g h : BridgeState → CallResult} (hg : SetQ g)
    (hh : SetQ h) : SetQ (fun s => bindE (g s) h) := by
  intro s q
  dsimp only
  rw [hg s q]
  rcases hr : g s with ⟨s1, r⟩
  cases r with
  | none => simpa [bindE] using hh s1 q
  | some e => simp [bindE]

theorem updateStatus_setQ (id : Nat) (st : Status) (k : Kind) :
    SetQP (updateStatus id st k) := by
  intro s q
  unfold updateStatus
  cases k <;> rfl

theorem tokenLock_setQ (tok acc amt : Nat) : SetQ (tokenLock tok acc amt) := by
  intro s q
  unfold tokenLock
  dsimp only
  split_ifs <;> rfl

theorem tokenUnlock_setQ (tok acc amt : Nat) : SetQ (tokenUnlock tok acc amt) := by
  intro s q
  unfold tokenUnlock
  dsimp only
  split_ifs <;> rfl

theorem tokenMint_setQ (tok acc amt : Nat) : SetQ (tokenMint tok acc amt) := by
  intro s q
  unfold tokenMint
  dsimp only
  split_ifs <;> rfl

theorem tokenBurn_setQ (tok acc amt : Nat) : SetQ (tokenBurn tok acc amt) := by
  intro s q
  unfold tokenBurn
  dsimp only
  split_ifs <;> rfl

theorem deposit_setQ (m : TransferMessage) : SetQ (deposit m) := by
  intro s q
  unfold deposit subPendingMint tokenMint updateStatus pushEvent
  dsimp only [ok, err, bindE]
  repeat' (first | rfl | (split_ifs <;> dsimp only [ok, err, bindE]))

theorem withdraw_setQ (m : TransferMessage) : SetQ (withdraw m) := by
  intro s q
  unfold withdraw checkDailyHolds subPendingBurn lockForBurn tokenLock
    updateStatus pushEvent balanceOf
  dsimp only [ok, err, bindE]
  repeat' (first | rfl | (split_ifs <;> dsimp only [ok, err, bindE]))

theorem cancelTransferEffect_setQ (m : TransferMessage) :
    SetQ (cancelTransferEffect m) := by
  intro s q
  unfold cancelTransferEffect tokenUnlock updateStatus
  dsimp only [ok, err, bindE]
  repeat' (first | rfl | (split_ifs <;> dsimp only [ok, err, bindE]))

theorem executeBurn_setQ (mid : Nat) : SetQ (executeBurn mid) := by
  intro s q
  unfold executeBurn tokenUnlock tokenBurn pushEvent
  dsimp only [ok, err, bindE]
  repeat' (first | rfl | (split_ifs <;> dsimp only [ok, err, bindE]))

theorem executeTransfer_setQ (m : TransferMessage) : SetQ (executeTransfer m) := by
  intro s q
  unfold executeTransfer
  cases hma : m.action <;> cases hms : m.status <;> dsimp only <;>
    first
      | exact deposit_setQ m s q
      | exact cancelTransferEffect_setQ m s q
      | exact executeBurn_setQ m.messageId s q
      | exact withdraw_setQ m s q
      | rfl

theorem pauseTheBridge_setQ (m : BridgeMessage) : SetQ (pauseTheBridge m) := by
  intro s q
  rfl

theorem resumeTheBridge_setQ (m : BridgeMessage) : SetQ (resumeTheBridge m) := by
  intro s q
  rfl

theorem manageBridge_setQ (m : BridgeMessage) : SetQ (manageBridge m) := by
  intro s q
  unfold manageBridge
  cases hma : m.action <;> cases hms : m.status <;> dsimp only <;>
    first
      | exact pauseTheBridge_setQ m s q
      | exact resumeTheBridge_setQ m s q
      | rfl

theorem updateLimitsEffect_setQ (m : LimitMessage) : SetQ (updateLimitsEffect m) := by
  intro s q
  unfold updateLimitsEffect checkLimits updateStatus
  dsimp only [ok, err, bindE]
  repeat' (first | rfl | (split_ifs <;> dsimp only [ok, err, bindE]))

theorem setPending_setQ (tid : Nat) (k : Kind) : SetQ (setPending tid k) := by
  intro s q
  unfold setPending addPendingBurn addPendingMint updateStatus
  cases k <;> dsimp only [ok, err, bindE] <;>
    (cases hma : (mapGetD s.transferMessages (mapGetD s.messageId tid 0)
        defaultTransferMessage).action) <;>
    dsimp only [ok, err, bindE] <;>
    repeat' (first | rfl | (split_ifs <;> dsimp only [ok, err, bindE]))

/-- `votes_are_enough` reads only `ValidatorsCount`, never the stored
`Quorum`. -/
theorem votesAreEnough_setQ (s : BridgeState) (q n : Nat) :
    votesAreEnough { s with quorum := q } n = votesAreEnough s n := rfl

theorem eq_of_eraseQ {s1 s2 : BridgeState}
    (h : eraseQuorum s1 = eraseQuorum s2) :
    s1 = { s2 with quorum := s1.quorum } := by
  calc s1 = { (eraseQuorum s1) with quorum := s1.quorum } := rfl
  _ = { (eraseQuorum s2) with quorum := s1.quorum } := by rw [h]
  _ = { s2 with quorum := s1.quorum } := rfl

/-- `manage_validator_list` overwrites the stored `Quorum` (with the
message's quorum) but never reads it: its result and its effect on every
other storage item are independent of the stored value. -/
theorem manageValidatorList_eraseQ (i : ValidatorMessage) (s : BridgeState)
    (q : Nat) :
    (manageValidatorList i { s with quorum := q }).2
      = (manageValidatorList i s).2 ∧
    eraseQuorum (manageValidatorList i { s with quorum := q }).1
      = eraseQuorum (manageValidatorList i s).1 := by
  unfold manageValidatorList updateStatus
  dsimp only [ok, err]
  split_ifs <;> exact ⟨rfl, rfl⟩

theorem bindE_mvl_tail (i : ValidatorMessage) (s : BridgeState) (q : Nat)
    (k : BridgeState → BridgeState)
    (hk : ∀ s1 s2, eraseQuorum s1 = eraseQuorum s2 →
      eraseQuorum (k s1) = eraseQuorum (k s2)) :
    (bindE (manageValidatorList i { s with quorum := q }) (fun s1 => ok (k s1))).2
      = (bindE (manageValidatorList i s) (fun s1 => ok (k s1))).2 ∧
    eraseQuorum (bindE (manageValidatorList i { s with quorum := q })
        (fun s1 => ok (k s1))).1
      = eraseQuorum (bindE (manageValidatorList i s) (fun s1 => ok (k s1))).1 := by
  obtain ⟨h2, he⟩ := manageValidatorList_eraseQ i s q
  rcases hr1 : manageValidatorList i { s with quorum := q } with ⟨s1, r1⟩
  rcases hr2 : manageValidatorList i s with ⟨s2, r2⟩
  rw [hr1, hr2] at h2 he
  dsimp only at h2 he
  subst h2
  cases r1 with
  | none =>
      dsimp only [bindE, ok]
      exact ⟨rfl, hk _ _ he⟩
  | some e =>
      dsimp only [bindE]
      exact ⟨rfl, he⟩

set_option maxHeartbeats 1000000 in
/-- C9: Noninterference of the stored `Quorum` value: two runs of the
vote-casting core `_sign` from states that differ only in the stored `Quorum`
produce the same result (so in particular the same quorum decision, which
reads only the proposal vote count and the current `ValidatorsCount` through
`votes_are_enough`) and final states that again agree on everything except
the stored `Quorum` (which `manage_validator_list` may overwrite with the
message's value, identically in both runs). -/
theorem sign_stored_quorum_noninterference (s : BridgeState) (q v tid : Nat) :
    (sign v tid { s with quorum := q }).2 = (sign v tid s).2 ∧
    eraseQuorum (sign v tid { s with quorum := q }).1
      = eraseQuorum (sign v tid s).1 := by
  unfold sign
  dsimp only
  rw [votesAreEnough_setQ]
  cases hk : (mapGetD s.bridgeTransfers tid defaultBridgeTransfer).kind <;>
    simp only [hk] <;>
    split_ifs <;>
    first
      | exact ⟨rfl, rfl⟩
      | (rw [executeTransfer_setQ]
         rcases executeTransfer _ s with ⟨s1, r⟩
         cases r <;> exact ⟨rfl, rfl⟩)
      | (rw [updateLimitsEffect_setQ]
         rcases updateLimitsEffect _ s with ⟨s1, r⟩
         cases r <;> exact ⟨rfl, rfl⟩)
      | (rw [manageBridge_setQ]
         rcases manageBridge _ s with ⟨s1, r⟩
         cases r <;> exact ⟨rfl, rfl⟩)
      | (rw [setPending_setQ]
         rcases setPending tid _ s with ⟨s1, r⟩
         cases r <;> exact ⟨rfl, rfl⟩)
      | exact bindE_mvl_tail _ s q _ (fun s1 s2 h => by rw [eq_of_eraseQ h]; rfl)

/-- C7: Idempotent proposal creation: `get_transfer_id_checked` creates a
proposal exactly when no proposal exists for the message hash — allocating the
next sequential id, registering both indexes and an open zero-vote proposal —
and otherwise leaves the state completely unchanged, so the first call
deriving a message id creates one proposal and every later call reuses it. -/
theorem getTransferIdChecked_idempotent (s : BridgeState) (mid : Nat) (k : Kind) :
    (mapContains s.transferId mid = false →
      (getTransferIdChecked mid k s).2 = none ∧
      (getTransferIdChecked mid k s).1.bridgeTransfersCount
        = s.bridgeTransfersCount + 1 ∧
      mapGetD (getTransferIdChecked mid k s).1.transferId mid 0
        = s.bridgeTransfersCount ∧
      mapGetD (getTransferIdChecked mid k s).1.bridgeTransfers
          s.bridgeTransfersCount defaultBridgeTransfer
        = { transferId := s.bridgeTransfersCount, messageId := mid,
            isOpen := true, votes := 0, kind := k } ∧
      mapGetD (getTransferIdChecked mid k s).1.messageId s.bridgeTransfersCount 0
        = mid) ∧
    (mapContains s.transferId mid = true →
      getTransferIdChecked mid k s = ok s) := by
  constructor
  · intro h
    unfold getTransferIdChecked createTransfer
    simp [h, ok, mapGetD_insert_self]
  · intro h
    unfold getTransferIdChecked
    simp [h]

/-- C8: `check_daily_account_volume`: when `cur_pending + amount <
day_max_limit_for_one_address` fails, the call is rejected and the account is
in today's blocklist afterwards — appended with a pause event if it was not
there, with no state change at all if it already was (so the event fires at
most once per account per day); and an account already in today's blocklist is
rejected regardless of the arithmetic check. -/
theorem checkDailyAccountVolume_spec (s : BridgeState) (tok acc amt : Nat) :
    (¬ (mapGetD s.dailyLimits (tok, acc) 0 + amt
          < s.currentLimits.dayMaxLimitForOneAddress) →
      (checkDailyAccountVolume tok acc amt s).2
          = some "Transfer declined, user blocked due to daily volume limit." ∧
      acc ∈ mapGetD (checkDailyAccountVolume tok acc amt s).1.dailyBlocked
          (tok, (getDayPair s).2) [] ∧
      (acc ∈ mapGetD s.dailyBlocked (tok, (getDayPair s).2) [] →
        (checkDailyAccountVolume tok acc amt s).1 = s) ∧
      (acc ∉ mapGetD s.dailyBlocked (tok, (getDayPair s).2) [] →
        mapGetD (checkDailyAccountVolume tok acc amt s).1.dailyBlocked
            (tok, (getDayPair s).2) []
          = mapGetD s.dailyBlocked (tok, (getDayPair s).2) [] ++ [acc] ∧
        (checkDailyAccountVolume tok acc amt s).1.events
          = s.events ++ [BEvent.accountPausedMessage
              (hashAccountMoment s.now acc) acc s.now tok])) ∧
    (acc ∈ mapGetD s.dailyBlocked (tok, (getDayPair s).2) [] →
      (checkDailyAccountVolume tok acc amt s).2
        = some "Transfer declined, user blocked due to daily volume limit.") := by
  constructor
  · intro h
    unfold checkDailyAccountVolume
    simp only [decide_eq_true_eq, decide_eq_false_iff_not]
    by_cases hb : acc ∈ mapGetD s.dailyBlocked (tok, (getDayPair s).2) []
    · simp [h, hb, err, pushEvent, List.any_eq_true]
    · simp [h, hb, err, pushEvent, List.any_eq_true, mapGetD_insert_self]
  · intro hb
    unfold checkDailyAccountVolume
    by_cases h : mapGetD s.dailyLimits (tok, acc) 0 + amt
        < s.currentLimits.dayMaxLimitForOneAddress
    · have hnot : ¬ ∀ x ∈ mapGetD s.dailyBlocked (tok, (getDayPair s).2) [],
          ¬x = acc := fun hall => hall acc hb rfl
      simp [h, err, List.any_eq_true, hnot]
    · by_cases hc : acc ∈ mapGetD s.dailyBlocked (tok, (getDayPair s).2) []
      · simp [h, hc, err, List.any_eq_true]
      · simp [h, hc, err, List.any_eq_true, mapGetD_insert_self]

/-- C3: For every vote cast on an open proposal — of any kind, and for
transfers of either direction — whose transfer-message status is not already
terminal, quorum is decided exactly by
`100·(votes+1) ≥ 51·ValidatorsCount` with `ValidatorsCount` read from the
state AT THE CALL (not snapshotted at proposal creation); when it holds, the
status of the kind's message is set to `Approved` and the kind-specific
effect handler executes on it (`Transfer` → `execute_transfer`, `Limits` →
`_update_limits`, `Validator` → `manage_validator_list`, `Bridge` →
`manage_bridge`) before the proposal is written back closed; otherwise the
call routes through `set_pending` and the proposal stays open.  (The
source's `votes as f64 / f64::from(count) >= 0.51` is modelled by the exact
integer inequality — see `votesAreEnough`.) -/
theorem sign_quorum_threshold_at_call_time (s : BridgeState) (v tid : Nat)
    (t : BridgeTransfer) (m : TransferMessage) (lm : LimitMessage)
    (vm : ValidatorMessage) (bm : BridgeMessage)
    (ht : mapGetD s.bridgeTransfers tid defaultBridgeTransfer = t)
    (hm : mapGetD s.transferMessages t.messageId defaultTransferMessage = m)
    (hl : mapGetD s.limitMessages t.messageId defaultLimitMessage = lm)
    (hvh : mapGetD s.validatorHistory t.messageId defaultValidatorMessage = vm)
    (hbm : mapGetD s.bridgeMessages t.messageId defaultBridgeMessage = bm)
    (hv : mapGetD s.validatorVotes (tid, v) false = false)
    (ho : t.isOpen = true)
    (hc : m.status ≠ Status.confirmed) (hca : m.status ≠ Status.canceled) :
    (100 * (t.votes + 1) ≥ 51 * s.validatorsCount →
      sign v tid s =
        bindE (match t.kind with
          | Kind.transfer => executeTransfer { m with status := Status.approved } s
          | Kind.limits => updateLimitsEffect { lm with status := Status.approved } s
          | Kind.validator =>
              manageValidatorList { vm with status := Status.approved } s
          | Kind.bridge => manageBridge { bm with status := Status.approved } s)
          (fun s1 =>
            ok { s1 with
              validatorVotes := mapInsert s1.validatorVotes (tid, v) true,
              bridgeTransfers := mapInsert s1.bridgeTransfers tid
                { t with votes := t.votes + 1, isOpen := false } })) ∧
    (100 * (t.votes + 1) < 51 * s.validatorsCount →
      sign v tid s =
        bindE (setPending tid t.kind s) (fun s1 =>
          ok { s1 with
            validatorVotes := mapInsert s1.validatorVotes (tid, v) true,
            bridgeTransfers := mapInsert s1.bridgeTransfers tid
              { t with votes := t.votes + 1 } })) := by
  constructor
  · intro hq
    have hq' : votesAreEnough s (t.votes + 1) = true := by
      simp only [votesAreEnough, ge_iff_le, decide_eq_true_eq]
      omega
    unfold sign
    cases hk : t.kind <;>
      simp [ht, hm, hl, hvh, hbm, hv, ho, hk, hq', hc, hca]
  · intro hq
    have hq' : votesAreEnough s (t.votes + 1) = false := by
      simp only [votesAreEnough, ge_iff_le, decide_eq_false_iff_not]
      omega
    unfold sign
    simp [ht, hm, hv, ho, hq', hc, hca]

/-- C2 (amended): pending-volume accounting is incremental but NOT in
bijection with the `Pending` message set: EVERY below-quorum vote on a
`Transfer` proposal whose message is not terminal adds the message's amount
to `CurrentPendingBurn` (action `Withdraw`) or `CurrentPendingMint` (action
`Deposit`) again and (re)sets the status to `Pending`, so a proposal that
receives several below-quorum votes is counted several times. -/
theorem sign_below_quorum_adds_pending (s : BridgeState) (v tid : Nat)
    (t : BridgeTransfer) (m : TransferMessage)
    (ht : mapGetD s.bridgeTransfers tid defaultBridgeTransfer = t)
    (hmm : mapGetD s.messageId tid 0 = t.messageId)
    (hm : mapGetD s.transferMessages t.messageId defaultTransferMessage = m)
    (hv : mapGetD s.validatorVotes (tid, v) false = false)
    (ho : t.isOpen = true)
    (hk : t.kind = Kind.transfer)
    (hq : 100 * (t.votes + 1) < 51 * s.validatorsCount)
    (hc : m.status ≠ Status.confirmed) (hca : m.status ≠ Status.canceled) :
    (m.action = Status.withdraw → s.currentPendingBurn + m.amount ≤ U128MAX →
      (sign v tid s).2 = none ∧
      (sign v tid s).1.currentPendingBurn = s.currentPendingBurn + m.amount ∧
      (sign v tid s).1.currentPendingMint = s.currentPendingMint ∧
      (mapGetD (sign v tid s).1.transferMessages t.messageId
          defaultTransferMessage).status = Status.pending) ∧
    (m.action = Status.deposit → s.currentPendingMint + m.amount ≤ U128MAX →
      (sign v tid s).2 = none ∧
      (sign v tid s).1.currentPendingMint = s.currentPendingMint + m.amount ∧
      (sign v tid s).1.currentPendingBurn = s.currentPendingBurn ∧
      (mapGetD (sign v tid s).1.transferMessages t.messageId
          defaultTransferMessage).status = Status.pending) := by
  have hq' : votesAreEnough s (t.votes + 1) = false := by
    simp only [votesAreEnough, ge_iff_le, decide_eq_false_iff_not]
    omega
  constructor
  · intro haw hov
    have hnov : ¬ s.currentPendingBurn + m.amount > U128MAX := by omega
    unfold sign setPending addPendingBurn updateStatus
    simp [ht, hm, hmm, hv, ho, hk, hq', hc, hca, haw, hnov, bindE, ok,
      mapGetD_insert_self]
  · intro had hov
    have hnov : ¬ s.currentPendingMint + m.amount > U128MAX := by omega
    unfold sign setPending addPendingMint updateStatus
    simp [ht, hm, hmm, hv, ho, hk, hq', hc, hca, had, hnov, bindE, ok,
      mapGetD_insert_self]

/-- Helper: a successful `cancel_transfer` on an `Approved` message of a
closed proposal (caller in the genesis `ValidatorAccounts`, one vote below
quorum) commits `Canceled`, reopens the proposal with the caller's fresh vote,
clears the recorded votes of the genesis accounts — and leaves every other
account's recorded vote untouched. -/
theorem cancel_approved_reopens (s : BridgeState) (v mid tid : Nat)
    (t : BridgeTransfer) (m : TransferMessage)
    (hvm : mapContains s.validators v = true)
    (hmid : mapGetD s.transferId mid 0 = tid)
    (ht : mapGetD s.bridgeTransfers tid defaultBridgeTransfer = t)
    (htm : t.messageId = mid)
    (hm : mapGetD s.transferMessages mid defaultTransferMessage = m)
    (hst : m.status = Status.approved)
    (hcl : t.isOpen = false)
    (hq : 100 < 51 * s.validatorsCount)
    (hva : v ∈ s.validatorAccounts) :
    (cancelTransfer v mid s).2 = none ∧
    (mapGetD (cancelTransfer v mid s).1.transferMessages mid
        defaultTransferMessage).status = Status.canceled ∧
    mapGetD (cancelTransfer v mid s).1.bridgeTransfers tid defaultBridgeTransfer
      = { t with votes := 1, isOpen := true } ∧
    mapGetD (cancelTransfer v mid s).1.validatorVotes (tid, v) false = true ∧
    (∀ a ∈ s.validatorAccounts, a ≠ v →
      mapGetD (cancelTransfer v mid s).1.validatorVotes (tid, a) false = false) ∧
    (∀ a, a ∉ s.validatorAccounts → a ≠ v →
      mapGetD (cancelTransfer v mid s).1.validatorVotes (tid, a) false
        = mapGetD s.validatorVotes (tid, a) false) := by
  have hq' : ∀ s' : BridgeState, s'.validatorsCount = s.validatorsCount →
      votesAreEnough s' 1 = false := by
    intro s' h
    simp only [votesAreEnough, ge_iff_le, decide_eq_false_iff_not, h]
    omega
  unfold cancelTransfer checkValidator updateStatus reopenForBurnConfirmation sign
  simp only [hvm, if_true, hm, hst, hmid, ht, htm, bindE, ok, err]
  simp [hm, hst, hmid, ht, htm, hcl, mapGetD_insert_self, mapGetD_foldl_clear,
    hva, hq', bindE, ok, setPending, mapGetD_insert]
  constructor
  · intro a ha hav
    exact ⟨hav, fun h => absurd ha h⟩
  · intro a ha hav
    simp [ha, hav]

/-- Helper: the mirror fact for `confirm_transfer` (status committed to
`Confirmed`). -/
theorem confirm_approved_reopens (s : BridgeState) (v mid tid : Nat)
    (t : BridgeTransfer) (m : TransferMessage)
    (hop : s.bridgeIsOperational = true)
    (hvm : mapContains s.validators v = true)
    (hmid : mapGetD s.transferId mid 0 = tid)
    (ht : mapGetD s.bridgeTransfers tid defaultBridgeTransfer = t)
    (htm : t.messageId = mid)
    (hm : mapGetD s.transferMessages mid defaultTransferMessage = m)
    (hst : m.status = Status.approved)
    (hcl : t.isOpen = false)
    (hq : 100 < 51 * s.validatorsCount)
    (hva : v ∈ s.validatorAccounts) :
    (confirmTransfer v mid s).2 = none ∧
    (mapGetD (confirmTransfer v mid s).1.transferMessages mid
        defaultTransferMessage).status = Status.confirmed ∧
    mapGetD (confirmTransfer v mid s).1.bridgeTransfers tid defaultBridgeTransfer
      = { t with votes := 1, isOpen := true } ∧
    mapGetD (confirmTransfer v mid s).1.validatorVotes (tid, v) false = true ∧
    (∀ a ∈ s.validatorAccounts, a ≠ v →
      mapGetD (confirmTransfer v mid s).1.validatorVotes (tid, a) false = false) ∧
    (∀ a, a ∉ s.validatorAccounts → a ≠ v →
      mapGetD (confirmTransfer v mid s).1.validatorVotes (tid, a) false
        = mapGetD s.validatorVotes (tid, a) false) := by
  have hq' : ∀ s' : BridgeState, s'.validatorsCount = s.validatorsCount →
      votesAreEnough s' 1 = false := by
    intro s' h
    simp only [votesAreEnough, ge_iff_le, decide_eq_false_iff_not, h]
    omega
  unfold confirmTransfer checkValidator updateStatus reopenForBurnConfirmation sign
  simp only [hop, hvm, if_true, hm, hst, hmid, ht, htm, bindE, ok, err]
  simp [hm, hst, hmid, ht, htm, hcl, mapGetD_insert_self, mapGetD_foldl_clear,
    hva, hq', bindE, ok, setPending, mapGetD_insert]
  constructor
  · intro a ha hav
    exact ⟨hav, fun h => absurd ha h⟩
  · intro a ha hav
    simp [ha, hav]

/-- C4 (amended): on an `Approved` message of a closed proposal, a successful
`confirm_transfer` (resp. `cancel_transfer`) sets the status to `Confirmed`
(resp. `Canceled`) and reopens the proposal — `open` becomes true, the votes
are reset by the reopening and the calling validator's own vote is then
recorded (so `votes = 1` after the call) — and resets the recorded votes of
exactly the accounts in the genesis `ValidatorAccounts` list: a vote recorded
by a validator added later through `update_validator_list` survives the
reopening unreset. -/
theorem confirm_cancel_reopen_resets_genesis_votes (s : BridgeState)
    (v mid tid : Nat) (t : BridgeTransfer) (m : TransferMessage)
    (hop : s.bridgeIsOperational = true)
    (hvm : mapContains s.validators v = true)
    (hmid : mapGetD s.transferId mid 0 = tid)
    (ht : mapGetD s.bridgeTransfers tid defaultBridgeTransfer = t)
    (htm : t.messageId = mid)
    (hm : mapGetD s.transferMessages mid defaultTransferMessage = m)
    (hst : m.status = Status.approved)
    (hcl : t.isOpen = false)
    (hq : 100 < 51 * s.validatorsCount)
    (hva : v ∈ s.validatorAccounts) :
    ((confirmTransfer v mid s).2 = none ∧
      (mapGetD (confirmTransfer v mid s).1.transferMessages mid
          defaultTransferMessage).status = Status.confirmed ∧
      mapGetD (confirmTransfer v mid s).1.bridgeTransfers tid
          defaultBridgeTransfer = { t with votes := 1, isOpen := true } ∧
      mapGetD (confirmTransfer v mid s).1.validatorVotes (tid, v) false = true ∧
      (∀ a ∈ s.validatorAccounts, a ≠ v →
        mapGetD (confirmTransfer v mid s).1.validatorVotes (tid, a) false
          = false) ∧
      (∀ a, a ∉ s.validatorAccounts → a ≠ v →
        mapGetD (confirmTransfer v mid s).1.validatorVotes (tid, a) false
          = mapGetD s.validatorVotes (tid, a) false)) ∧
    ((cancelTransfer v mid s).2 = none ∧
      (mapGetD (cancelTransfer v mid s).1.transferMessages mid
          defaultTransferMessage).status = Status.canceled ∧
      mapGetD (cancelTransfer v mid s).1.bridgeTransfers tid
          defaultBridgeTransfer = { t with votes := 1, isOpen := true } ∧
      mapGetD (cancelTransfer v mid s).1.validatorVotes (tid, v) false = true ∧
      (∀ a ∈ s.validatorAccounts, a ≠ v →
        mapGetD (cancelTransfer v mid s).1.validatorVotes (tid, a) false
          = false) ∧
      (∀ a, a ∉ s.validatorAccounts → a ≠ v →
        mapGetD (cancelTransfer v mid s).1.validatorVotes (tid, a) false
          = mapGetD s.validatorVotes (tid, a) false)) :=
  ⟨confirm_approved_reopens s v mid tid t m hop hvm hmid ht htm hm hst hcl hq hva,
   cancel_approved_reopens s v mid tid t m hvm hmid ht htm hm hst hcl hq hva⟩

/-- Helper: the `Approved`→lock transition (`withdraw`) with an amount above
`balance / 100 * 75` fails AND commits the `Canceled` status in the same
call. -/
theorem withdraw_cap_commits_cancel (s : BridgeState) (m : TransferMessage)
    (hcap : balanceOf m.token m.substrateAddress s / 100 * 75 < m.amount) :
    (withdraw m s).2
      = some "Cannot withdraw more that 75% of first day deposit." ∧
    (mapGetD (withdraw m s).1.transferMessages m.messageId
        defaultTransferMessage).status = Status.canceled := by
  unfold withdraw checkDailyHolds updateStatus
  simp [hcap, Nat.not_lt_zero, bindE, err, mapGetD_insert_self]

/-- Helper: `cancel_transfer` by a validator whose vote for the proposal is
recorded and who is NOT in the genesis `ValidatorAccounts` list fails with
"already voted" — yet the `Canceled` status and the reopening of the proposal
are already committed. -/
theorem cancel_voted_commits_partial (s : BridgeState) (v mid tid : Nat)
    (t : BridgeTransfer) (m : TransferMessage)
    (hvm : mapContains s.validators v = true)
    (hmid : mapGetD s.transferId mid 0 = tid)
    (ht : mapGetD s.bridgeTransfers tid defaultBridgeTransfer = t)
    (htm : t.messageId = mid)
    (hm : mapGetD s.transferMessages mid defaultTransferMessage = m)
    (hst : m.status = Status.approved)
    (hcl : t.isOpen = false)
    (hvoted : mapGetD s.validatorVotes (tid, v) false = true)
    (hvna : v ∉ s.validatorAccounts) :
    (cancelTransfer v mid s).2 = some "This validator has already voted." ∧
    (mapGetD (cancelTransfer v mid s).1.transferMessages mid
        defaultTransferMessage).status = Status.canceled ∧
    mapGetD (cancelTransfer v mid s).1.bridgeTransfers tid defaultBridgeTransfer
      = { t with votes := 0, isOpen := true } := by
  unfold cancelTransfer checkValidator updateStatus reopenForBurnConfirmation sign
  simp only [hvm, if_true, hm, hst, hmid, ht, htm, bindE, ok, err]
  simp [hm, hst, hmid, ht, htm, hcl, hvoted, hvna, mapGetD_insert_self,
    mapGetD_foldl_clear, bindE, ok, err]

/-- C6 (amended): the 75%-cap violation on the `Approved`/lock transition is a
documented side-effecting failure — the call fails and the `Canceled` status
write is committed — but it is NOT the only failure path that persists
partial writes: `cancel_transfer` (and `confirm_transfer`) commit the status
update and the proposal reopening before the vote step, so when that vote
fails (e.g. "This validator has already voted."), those writes persist. -/
theorem side_effecting_failures (s s' : BridgeState) (m : TransferMessage)
    (v mid tid : Nat) (t : BridgeTransfer) (m' : TransferMessage)
    (hcap : balanceOf m.token m.substrateAddress s / 100 * 75 < m.amount)
    (hvm : mapContains s'.validators v = true)
    (hmid : mapGetD s'.transferId mid 0 = tid)
    (ht : mapGetD s'.bridgeTransfers tid defaultBridgeTransfer = t)
    (htm : t.messageId = mid)
    (hm : mapGetD s'.transferMessages mid defaultTransferMessage = m')
    (hst : m'.status = Status.approved)
    (hcl : t.isOpen = false)
    (hvoted : mapGetD s'.validatorVotes (tid, v) false = true)
    (hvna : v ∉ s'.validatorAccounts) :
    ((withdraw m s).2
        = some "Cannot withdraw more that 75% of first day deposit." ∧
      (mapGetD (withdraw m s).1.transferMessages m.messageId
          defaultTransferMessage).status = Status.canceled) ∧
    ((cancelTransfer v mid s').2 = some "This validator has already voted." ∧
      (mapGetD (cancelTransfer v mid s').1.transferMessages mid
          defaultTransferMessage).status = Status.canceled ∧
      mapGetD (cancelTransfer v mid s').1.bridgeTransfers tid
          defaultBridgeTransfer = { t with votes := 0, isOpen := true }) :=
  ⟨withdraw_cap_commits_cancel s m hcap,
   cancel_voted_commits_partial s' v mid tid t m' hvm hmid ht htm hm hst hcl
     hvoted hvna⟩

/-- C1 (code bug): `check_daily_holds` computes
`day_passed = first_tx.0 + DAY_IN_BLOCKS < 0`, a comparison against block
number zero that is false for every state, so the 75% cap applies FOREVER: for
every state — however much time has elapsed since the account's first
recorded deposit — a withdrawal above `balance / 100 * 75` fails the call and
commits `Canceled`.  (Also `deposit` records the first-deposit block as the
constant 0, never the current block.) -/
theorem checkDailyHolds_cancels_regardless_of_elapsed_time
    (s : BridgeState) (m : TransferMessage)
    (hcap : balanceOf m.token m.substrateAddress s / 100 * 75 < m.amount) :
    (checkDailyHolds m s).2
      = some "Cannot withdraw more that 75% of first day deposit." ∧
    (mapGetD (checkDailyHolds m s).1.transferMessages m.messageId
        defaultTransferMessage).status = Status.canceled := by
  unfold checkDailyHolds updateStatus
  simp [hcap, Nat.not_lt_zero, err, mapGetD_insert_self]

/-- C5 (amended): a vote cast (through `_sign`, which every voting entry
point funnels into) on a proposal that is closed and not reopened is rejected
and performs no effect — the state is returned unchanged — with the error
"This validator has already voted." when that validator's vote for the
proposal is recorded and "This transfer is not open" otherwise; in
particular no kind-specific effect can run again while the proposal stays
closed. -/
theorem vote_on_closed_proposal_rejected (s : BridgeState) (v tid : Nat)
    (h : (mapGetD s.bridgeTransfers tid defaultBridgeTransfer).isOpen = false) :
    sign v tid s =
      (s, some (if mapGetD s.validatorVotes (tid, v) false = true
                then "This validator has already voted."
                else "This transfer is not open")) :=
  sign_closed s v tid h

/-- C10 (amended): `pause_bridge`/`resume_bridge` always use the constant
message ids `pauseHash`/`resumeHash`, so each has at most one proposal ever
(see C7); while that proposal is closed, a further call by a validator fails
with no state change — `pause_bridge` with "Bridge is not operational
already" whenever the bridge is paused, otherwise (and `resume_bridge`
always) with "This validator has already voted." if the caller's vote is
recorded and "This transfer is not open" if not.  The proposal does NOT stay
closed forever, though: `cancel_transfer` invoked on the constant pause id
succeeds and reopens the closed Bridge-kind pause proposal, because
`reopen_for_burn_confirmation` is not restricted to Transfer-kind
proposals. -/
theorem pause_resume_closed_proposal_failures (s : BridgeState) (v : Nat) :
    (mapContains s.validators v = true → s.bridgeIsOperational = false →
      pauseBridge v s = (s, some "Bridge is not operational already")) ∧
    (mapContains s.validators v = true → s.bridgeIsOperational = true →
      mapContains s.bridgeMessages pauseHash = true →
      (mapGetD s.bridgeTransfers (mapGetD s.transferId pauseHash 0)
          defaultBridgeTransfer).isOpen = false →
      pauseBridge v s = (s, some (if mapGetD s.validatorVotes
          (mapGetD s.transferId pauseHash 0, v) false = true
        then "This validator has already voted."
        else "This transfer is not open"))) ∧
    (mapContains s.validators v = true →
      mapContains s.bridgeMessages resumeHash = true →
      (mapGetD s.bridgeTransfers (mapGetD s.transferId resumeHash 0)
          defaultBridgeTransfer).isOpen = false →
      resumeBridge v s = (s, some (if mapGetD s.validatorVotes
          (mapGetD s.transferId resumeHash 0, v) false = true
        then "This validator has already voted."
        else "This transfer is not open"))) ∧
    ((cancelTransfer 3 pauseHash c10Paused).2 = none ∧
      (mapGetD (cancelTransfer 3 pauseHash c10Paused).1.bridgeTransfers 0
          defaultBridgeTransfer).isOpen = true ∧
      (mapGetD (cancelTransfer 3 pauseHash c10Paused).1.bridgeTransfers 0
          defaultBridgeTransfer).kind = Kind.bridge) := by
  refine ⟨?_, ?_, ?_, by refine ⟨?_, ?_, ?_⟩ <;> decide⟩
  · intro hvm hop
    unfold pauseBridge checkValidator
    simp [hvm, hop, bindE, err, ok]
  · intro hvm hop hbm hclosed
    unfold pauseBridge checkValidator getTransferIdChecked
    simp only [hvm, hop, hbm, Bool.not_true, Bool.not_false, bindE, ok, err,
      Bool.false_eq_true, Bool.true_eq_false, eq_self_iff_true, if_true,
      if_false]
    rw [sign_closed _ _ _ hclosed]
  · intro hvm hbm hclosed
    unfold resumeBridge checkValidator getTransferIdChecked
    simp only [hvm, hbm, Bool.not_true, Bool.not_false, bindE, ok, err,
      Bool.false_eq_true, Bool.true_eq_false, eq_self_iff_true, if_true,
      if_false]
    rw [sign_closed _ _ _ hclosed]

/-- C2 (counterexample): from a reachable state of a four-validator genesis —
one withdrawal of 49 initiated, then two below-quorum votes — the call chain
succeeds, yet `CurrentPendingBurn` is 98 while the sum of the amounts of
`Pending` withdraw messages is 49: the claimed equality fails. -/
theorem pending_counter_diverges_counterexample :
    c2Last.2 = none ∧
    c2Last.1.currentPendingBurn = 98 ∧
    pendingSum c2Last.1 Status.withdraw = 49 ∧
    c2Last.1.currentPendingBurn ≠ pendingSum c2Last.1 Status.withdraw := by
  refine ⟨?_, ?_, ?_, ?_⟩ <;> decide

/-- C4 (counterexample): after the validator set grew to {1,2,3,4} and
validator 4 voted on the withdrawal proposal, a successful `cancel_transfer`
by genesis validator 3 reopens the closed proposal — but validator 4's
recorded vote is still set, contradicting "every validator's recorded vote
... is reset to unvoted". -/
theorem reopen_keeps_nongenesis_vote_counterexample :
    c4Cancel.2 = none ∧
    (mapGetD c4Cancel.1.transferMessages mid49 defaultTransferMessage).status
      = Status.canceled ∧
    (mapGetD c4Cancel.1.bridgeTransfers 1 defaultBridgeTransfer).isOpen = true ∧
    mapGetD c4Cancel.1.validatorVotes (1, 4) false = true := by
  refine ⟨?_, ?_, ?_, ?_⟩ <;> decide

/-- C5 (counterexample): after a mint proposal reached quorum and closed,
re-submitting it from a validator who had voted is rejected with "This
validator has already voted." — not with "This transfer is not open" as
claimed — and the state is unchanged. -/
theorem revote_after_closure_error_counterexample :
    c5Revote.2 = some "This validator has already voted." ∧
    c5Revote.1 = c5Confirmed ∧
    "This validator has already voted." ≠ "This transfer is not open" := by
  refine ⟨?_, ?_, ?_⟩ <;> decide

/-- C6 (counterexample): `cancel_transfer` by the already-voted non-genesis
validator 4 FAILS ("This validator has already voted.") yet persists a
value-changing multi-field write: the message status moved from `Approved` to
`Canceled` and the closed proposal was reopened — a failure path other than
the documented 75%-cap case with partial writes committed. -/
theorem cancel_failure_partial_write_counterexample :
    c6Cancel.2 = some "This validator has already voted." ∧
    (mapGetD c4Approved.transferMessages mid49 defaultTransferMessage).status
      = Status.approved ∧
    (mapGetD c6Cancel.1.transferMessages mid49 defaultTransferMessage).status
      = Status.canceled ∧
    (mapGetD c4Approved.bridgeTransfers 1 defaultBridgeTransfer).isOpen
      = false ∧
    (mapGetD c6Cancel.1.bridgeTransfers 1 defaultBridgeTransfer).isOpen
      = true := by
  refine ⟨?_, ?_, ?_, ?_, ?_⟩ <;> decide

/-- C10 (counterexample): once the pause proposal reaches quorum (bridge
paused, proposal closed), the next `pause_bridge` call fails with "Bridge is
not operational already" — not with "This transfer is not open" as
claimed. -/
theorem repause_error_counterexample :
    c10Repause.2 = some "Bridge is not operational already" ∧
    c10Repause.1 = c10Paused ∧
    "Bridge is not operational already" ≠ "This transfer is not open" := by
  refine ⟨?_, ?_, ?_⟩ <;> decide

/-- Witness for C1: at `c1WitnessState` — first deposit recorded long ago
(message 900) and 100 days elapsed — the 160-of-200 withdrawal still fails
and is canceled. -/
theorem checkDailyHolds_cancels_witness :
    balanceOf c1WitnessMessage.token c1WitnessMessage.substrateAddress
        c1WitnessState / 100 * 75 < c1WitnessMessage.amount ∧
    c1WitnessState.now = DAY * 100 ∧
    mapGetD c1WitnessState.dailyHolds 6 (0, 0) = (0, 900) ∧
    ((checkDailyHolds c1WitnessMessage c1WitnessState).2
        = some "Cannot withdraw more that 75% of first day deposit." ∧
      (mapGetD (checkDailyHolds c1WitnessMessage c1WitnessState).1.transferMessages
          c1WitnessMessage.messageId defaultTransferMessage).status
        = Status.canceled) :=
  ⟨by decide, by decide, by decide,
   checkDailyHolds_cancels_regardless_of_elapsed_time c1WitnessState
     c1WitnessMessage (by decide)⟩

/-- Witness for C2's amended theorem at `wPendingState` (validator 1 casts
the first, below-quorum vote on proposal 0). -/
theorem below_quorum_adds_pending_witness :
    (sign 1 0 wPendingState).2 = none ∧
    (sign 1 0 wPendingState).1.currentPendingBurn
      = wPendingState.currentPendingBurn
        + (mapGetD wPendingState.transferMessages
            (mapGetD wPendingState.bridgeTransfers 0
              defaultBridgeTransfer).messageId
            defaultTransferMessage).amount ∧
    (sign 1 0 wPendingState).1.currentPendingMint
      = wPendingState.currentPendingMint ∧
    (mapGetD (sign 1 0 wPendingState).1.transferMessages
        (mapGetD wPendingState.bridgeTransfers 0 defaultBridgeTransfer).messageId
        defaultTransferMessage).status = Status.pending :=
  (sign_below_quorum_adds_pending wPendingState 1 0 _ _ rfl (by decide) rfl
    (by decide) (by decide) (by decide) (by decide) (by decide) (by decide)).1
    (by decide) (by decide)

/-- Witness for C3: at `wQuorumState` validator 2's vote is 2 of 3 (≥ 51% of
the CURRENT count) on a Transfer-kind proposal, so the call equals the
`execute_transfer` route on the `Approved` message; at `wPauseState`
validator 1's vote is 2 of 3 on the Bridge-kind pause proposal, so the call
equals the `manage_bridge` route; and at `wPendingState` validator 1's vote
is 1 of 4 (< 51%), so the call equals the `set_pending` route with the
proposal left open. -/
theorem sign_quorum_threshold_witness :
    (100 * ((mapGetD wQuorumState.bridgeTransfers 0 defaultBridgeTransfer).votes
        + 1) ≥ 51 * wQuorumState.validatorsCount ∧
      sign 2 0 wQuorumState =
        bindE (executeTransfer { mapGetD wQuorumState.transferMessages
            (mapGetD wQuorumState.bridgeTransfers 0
              defaultBridgeTransfer).messageId
            defaultTransferMessage with status := Status.approved } wQuorumState)
          (fun s1 => ok { s1 with
            validatorVotes := mapInsert s1.validatorVotes (0, 2) true,
            bridgeTransfers := mapInsert s1.bridgeTransfers 0
              { mapGetD wQuorumState.bridgeTransfers 0 defaultBridgeTransfer with
                votes := (mapGetD wQuorumState.bridgeTransfers 0
                  defaultBridgeTransfer).votes + 1,
                isOpen := false } })) ∧
    (100 * ((mapGetD wPauseState.bridgeTransfers 0 defaultBridgeTransfer).votes
        + 1) ≥ 51 * wPauseState.validatorsCount ∧
      sign 1 0 wPauseState =
        bindE (manageBridge { mapGetD wPauseState.bridgeMessages
            (mapGetD wPauseState.bridgeTransfers 0
              defaultBridgeTransfer).messageId
            defaultBridgeMessage with status := Status.approved } wPauseState)
          (fun s1 => ok { s1 with
            validatorVotes := mapInsert s1.validatorVotes (0, 1) true,
            bridgeTransfers := mapInsert s1.bridgeTransfers 0
              { mapGetD wPauseState.bridgeTransfers 0 defaultBridgeTransfer with
                votes := (mapGetD wPauseState.bridgeTransfers 0
                  defaultBridgeTransfer).votes + 1,
                isOpen := false } })) ∧
    (100 * ((mapGetD wPendingState.bridgeTransfers 0 defaultBridgeTransfer).votes
        + 1) < 51 * wPendingState.validatorsCount ∧
      sign 1 0 wPendingState =
        bindE (setPending 0 Kind.transfer wPendingState)
          (fun s1 => ok { s1 with
            validatorVotes := mapInsert s1.validatorVotes (0, 1) true,
            bridgeTransfers := mapInsert s1.bridgeTransfers 0
              { mapGetD wPendingState.bridgeTransfers 0 defaultBridgeTransfer with
                votes := (mapGetD wPendingState.bridgeTransfers 0
                  defaultBridgeTransfer).votes + 1 } })) := by
  refine ⟨⟨by decide, ?_⟩, ⟨by decide, ?_⟩, ⟨by decide, ?_⟩⟩
  · have h := (sign_quorum_threshold_at_call_time wQuorumState 2 0 _ _ _ _ _
      rfl rfl rfl rfl rfl (by decide) (by decide) (by decide) (by decide)).1
      (by decide)
    exact h.trans (by rfl)
  · have h := (sign_quorum_threshold_at_call_time wPauseState 1 0 _ _ _ _ _
      rfl rfl rfl rfl rfl (by decide) (by decide) (by decide) (by decide)).1
      (by decide)
    exact h.trans (by rfl)
  · have h := (sign_quorum_threshold_at_call_time wPendingState 1 0 _ _ _ _ _
      rfl rfl rfl rfl rfl (by decide) (by decide) (by decide) (by decide)).2
      (by decide)
    exact h.trans (by rfl)

/-- Witness for C4's amended theorem at `c4Approved`: genesis validator 3
cancels; afterwards genesis validator 1's vote is reset, while validator 4's
(added later) keeps its recorded value. -/
theorem confirm_cancel_reopen_witness :
    (cancelTransfer 3 mid49 c4Approved).2 = none ∧
    (mapGetD (cancelTransfer 3 mid49 c4Approved).1.transferMessages mid49
        defaultTransferMessage).status = Status.canceled ∧
    mapGetD (cancelTransfer 3 mid49 c4Approved).1.bridgeTransfers 1
        defaultBridgeTransfer
      = { mapGetD c4Approved.bridgeTransfers 1 defaultBridgeTransfer with
          votes := 1, isOpen := true } ∧
    mapGetD (cancelTransfer 3 mid49 c4Approved).1.validatorVotes (1, 3) false
      = true ∧
    mapGetD (cancelTransfer 3 mid49 c4Approved).1.validatorVotes (1, 1) false
      = false ∧
    mapGetD (cancelTransfer 3 mid49 c4Approved).1.validatorVotes (1, 4) false
      = mapGetD c4Approved.validatorVotes (1, 4) false := by
  have T := confirm_cancel_reopen_resets_genesis_votes c4Approved 3 mid49 1 _ _
    (by decide) (by decide) (by decide) rfl (by decide) rfl (by decide)
    (by decide) (by decide) (by decide)
  exact ⟨T.2.1, T.2.2.1, T.2.2.2.1, T.2.2.2.2.1,
    T.2.2.2.2.2.1 1 (by decide) (by decide),
    T.2.2.2.2.2.2 4 (by decide) (by decide)⟩

/-- Witness for C5's amended theorem: validator 3 votes on the closed mint
proposal of `c5Confirmed` and is told "This transfer is not open" with no
state change (its vote is not recorded). -/
theorem vote_on_closed_proposal_witness :
    (mapGetD c5Confirmed.bridgeTransfers 0 defaultBridgeTransfer).isOpen
      = false ∧
    sign 3 0 c5Confirmed =
      (c5Confirmed, some (if mapGetD c5Confirmed.validatorVotes (0, 3) false
          = true
        then "This validator has already voted."
        else "This transfer is not open")) :=
  ⟨by decide, vote_on_closed_proposal_rejected c5Confirmed 3 0 (by decide)⟩

/-- Witness for C6's amended theorem: the cap case at `c1WitnessState` and
the partial-write case at `c4Approved` (validator 4). -/
theorem side_effecting_failures_witness :
    ((withdraw c1WitnessMessage c1WitnessState).2
        = some "Cannot withdraw more that 75% of first day deposit." ∧
      (mapGetD (withdraw c1WitnessMessage c1WitnessState).1.transferMessages
          c1WitnessMessage.messageId defaultTransferMessage).status
        = Status.canceled) ∧
    ((cancelTransfer 4 mid49 c4Approved).2
        = some "This validator has already voted." ∧
      (mapGetD (cancelTransfer 4 mid49 c4Approved).1.transferMessages mid49
          defaultTransferMessage).status = Status.canceled ∧
      mapGetD (cancelTransfer 4 mid49 c4Approved).1.bridgeTransfers 1
          defaultBridgeTransfer
        = { mapGetD c4Approved.bridgeTransfers 1 defaultBridgeTransfer with
            votes := 0, isOpen := true }) :=
  side_effecting_failures c1WitnessState c4Approved c1WitnessMessage 4 mid49 1
    _ _ (by decide) (by decide) (by decide) rfl (by decide) rfl (by decide)
    (by decide) (by decide) (by decide)

/-- Witness for C7: message id 500 is fresh in `genesis3` (one proposal is
created, with id 0) and already known in `c5Confirmed` (the call is the
identity). -/
theorem proposal_creation_idempotent_witness :
    ((getTransferIdChecked 500 Kind.transfer genesis3).2 = none ∧
      (getTransferIdChecked 500 Kind.transfer genesis3).1.bridgeTransfersCount
        = genesis3.bridgeTransfersCount + 1 ∧
      mapGetD (getTransferIdChecked 500 Kind.transfer genesis3).1.transferId
          500 0 = genesis3.bridgeTransfersCount ∧
      mapGetD (getTransferIdChecked 500 Kind.transfer genesis3).1.bridgeTransfers
          genesis3.bridgeTransfersCount defaultBridgeTransfer
        = { transferId := genesis3.bridgeTransfersCount, messageId := 500,
            isOpen := true, votes := 0, kind := Kind.transfer } ∧
      mapGetD (getTransferIdChecked 500 Kind.transfer genesis3).1.messageId
          genesis3.bridgeTransfersCount 0 = 500) ∧
    getTransferIdChecked 500 Kind.transfer c5Confirmed = ok c5Confirmed :=
  ⟨(getTransferIdChecked_idempotent genesis3 500 Kind.transfer).1 (by decide),
   (getTransferIdChecked_idempotent c5Confirmed 500 Kind.transfer).2
     (by decide)⟩

/-- Witness for C8: in `genesis3b` an attempt of 100 (≥ the per-address limit
50) is rejected and blocks account 6 with one paused event; afterwards, in
`wBlockedState`, even an attempt of 1 — which passes the arithmetic check —
is rejected. -/
theorem daily_account_volume_witness :
    ((checkDailyAccountVolume 0 6 100 genesis3b).2
        = some "Transfer declined, user blocked due to daily volume limit." ∧
      (6 : Nat) ∈ mapGetD (checkDailyAccountVolume 0 6 100 genesis3b).1.dailyBlocked
          (0, (getDayPair genesis3b).2) [] ∧
      mapGetD (checkDailyAccountVolume 0 6 100 genesis3b).1.dailyBlocked
          (0, (getDayPair genesis3b).2) []
        = mapGetD genesis3b.dailyBlocked (0, (getDayPair genesis3b).2) []
            ++ [6] ∧
      (checkDailyAccountVolume 0 6 100 genesis3b).1.events
        = genesis3b.events ++ [BEvent.accountPausedMessage
            (hashAccountMoment genesis3b.now 6) 6 genesis3b.now 0]) ∧
    (mapGetD wBlockedState.dailyLimits (0, 6) 0 + 1
        < wBlockedState.currentLimits.dayMaxLimitForOneAddress ∧
      (checkDailyAccountVolume 0 6 1 wBlockedState).2
        = some "Transfer declined, user blocked due to daily volume limit.") := by
  have T1 := (checkDailyAccountVolume_spec genesis3b 0 6 100).1 (by decide)
  have T2 := (checkDailyAccountVolume_spec wBlockedState 0 6 1).2 (by decide)
  have T3 := T1.2.2.2 (by decide)
  exact ⟨⟨T1.1, T1.2.1, T3.1, T3.2⟩, by decide, T2⟩

/-- Witness for C10's amended theorem: a repause attempt while paused; and,
after the resume round (`c10Resumed`), a `pause_bridge` by the
already-voted validator 1 and a `resume_bridge` by validator 3 (never voted)
against the two closed proposals. -/
theorem pause_resume_closed_witness :
    pauseBridge 3 c10Paused
      = (c10Paused, some "Bridge is not operational already") ∧
    pauseBridge 1 c10Resumed
      = (c10Resumed, some (if mapGetD c10Resumed.validatorVotes
          (mapGetD c10Resumed.transferId pauseHash 0, 1) false = true
        then "This validator has already voted."
        else "This transfer is not open")) ∧
    resumeBridge 3 c10Resumed
      = (c10Resumed, some (if mapGetD c10Resumed.validatorVotes
          (mapGetD c10Resumed.transferId resumeHash 0, 3) false = true
        then "This validator has already voted."
        else "This transfer is not open")) :=
  ⟨(pause_resume_closed_proposal_failures c10Paused 3).1 (by decide) (by decide),
   (pause_resume_closed_proposal_failures c10Resumed 1).2.1 (by decide)
     (by decide) (by decide) (by decide),
   (pause_resume_closed_proposal_failures c10Resumed 3).2.2.1 (by decide)
     (by decide) (by decide)⟩

end Bridge
